import Mathlib

/-!
Verification development for the `dellqs-ai` repository (QS intake pipeline
and QSPlus export module).

The Python sources are shallowly embedded: Python floats are modelled as
rationals (`ℚ`), Python `Optional[T]` as `Option`, Python `str` as `String`
(with list-of-character helpers for the string algorithms), dynamically
typed JSON values as an inductive `PyVal`, and stateful or I/O-performing
code as explicit state passing over oracle parameters that stand for the
external world (file system contents, HTTP responses, subprocess output).
Wall-clock fields (`execution_time_ms`, timestamps) are omitted from the
embedded records since no property depends on them.
-/

/-- Python truthiness of an `Optional[str]` field: `None` and `""` are falsy. -/
def optStrTruthy : Option String → Bool
  | none => false
  | some s => !s.isEmpty

/-- Python truthiness of an `Optional[float]` field: `None` and `0.0` are falsy. -/
def optRatTruthy : Option ℚ → Bool
  | none => false
  | some q => q ≠ 0

/-- Python truthiness of an `Optional[int]` field: `None` and `0` are falsy. -/
def optIntTruthy : Option ℤ → Bool
  | none => false
  | some n => n ≠ 0

/-- ASCII whitespace as recognised by Python's `str.strip` / regex `\s`. -/
def isPySpace (c : Char) : Bool :=
  c = ' ' || c = '\t' || c = '\n' || c = '\r' ||
  c = Char.ofNat 11 || c = Char.ofNat 12

/-- Python `str.strip()` on a character list. -/
def pyStripL (l : List Char) : List Char :=
  (((l.dropWhile isPySpace).reverse).dropWhile isPySpace).reverse

/-- Python `str.strip()`. -/
def pyStrip (s : String) : String := ⟨pyStripL s.data⟩

/-- Python `str.lower()` (ASCII fragment). -/
def pyLower (s : String) : String := ⟨s.data.map Char.toLower⟩

/-- Helper for `pyTitle`: `prevAlpha` records whether the previous character
was alphabetic, as in CPython's `str.title`. -/
def pyTitleAux : Bool → List Char → List Char
  | _, [] => []
  | prevAlpha, c :: cs =>
    if c.isAlpha then
      (if prevAlpha then c.toLower else c.toUpper) :: pyTitleAux true cs
    else
      c :: pyTitleAux false cs

/-- Python `str.title()` (ASCII fragment). -/
def pyTitle (s : String) : String := ⟨pyTitleAux false s.data⟩

/-- `tools/common/base.py` `ToolStatus`.  The Python `PARTIAL` member is named
`partialResult` here because `partial` is a Lean keyword. -/
inductive ToolStatus
  | success
  | partialResult
  | failed
  | skipped
deriving DecidableEq

/-- `tools/common/base.py` `ToolError` (the free-form `details` dict is
reduced to an optional tag string). -/
structure ToolError where
  code : String
  message : String
  recoverable : Bool := true
  details : Option String := none
deriving DecidableEq

/-- `tools/common/base.py` `ToolResult` (timing fields omitted). -/
structure ToolResult (α : Type) where
  status : ToolStatus
  data : Option α := none
  errors : List ToolError := []
  warnings : List String := []

/-- `ToolResult.success` property: `status in (SUCCESS, PARTIAL)`. -/
def ToolResult.success {α : Type} (r : ToolResult α) : Bool :=
  r.status = ToolStatus.success || r.status = ToolStatus.partialResult

/-- `BaseTool._create_error` with the tool-name prefix passed explicitly. -/
def createError (toolNameUpper code message : String) (recoverable : Bool)
    (details : Option String := none) : ToolError :=
  { code := toolNameUpper ++ "_" ++ code
    message := message
    recoverable := recoverable
    details := details }

/-- `tools/common/schemas.py` `DrawingType`.  The `SECTION` member is named
`sectionDrawing` because `section` is a Lean keyword. -/
inductive DrawingType
  | floorPlan
  | sitePlan
  | elevation
  | sectionDrawing
  | detail
  | schedule
  | specification
  | roofPlan
  | reflectedCeiling
  | structural
  | mechanical
  | electrical
  | plumbing
  | landscape
  | demolition
  | coverSheet
  | legend
  | unknown
deriving DecidableEq

/-- The `.value` string of each `DrawingType` member. -/
def DrawingType.value : DrawingType → String
  | .floorPlan => "floor_plan"
  | .sitePlan => "site_plan"
  | .elevation => "elevation"
  | .sectionDrawing => "section"
  | .detail => "detail"
  | .schedule => "schedule"
  | .specification => "specification"
  | .roofPlan => "roof_plan"
  | .reflectedCeiling => "reflected_ceiling"
  | .structural => "structural"
  | .mechanical => "mechanical"
  | .electrical => "electrical"
  | .plumbing => "plumbing"
  | .landscape => "landscape"
  | .demolition => "demolition"
  | .coverSheet => "cover_sheet"
  | .legend => "legend"
  | .unknown => "unknown"

/-- `DrawingType(value)` lookup: `some t` when `value` is in the closed label
set, `none` when the constructor would raise `ValueError`. -/
def drawingTypeOfValue (s : String) : Option DrawingType :=
  if s = "floor_plan" then some .floorPlan
  else if s = "site_plan" then some .sitePlan
  else if s = "elevation" then some .elevation
  else if s = "section" then some .sectionDrawing
  else if s = "detail" then some .detail
  else if s = "schedule" then some .schedule
  else if s = "specification" then some .specification
  else if s = "roof_plan" then some .roofPlan
  else if s = "reflected_ceiling" then some .reflectedCeiling
  else if s = "structural" then some .structural
  else if s = "mechanical" then some .mechanical
  else if s = "electrical" then some .electrical
  else if s = "plumbing" then some .plumbing
  else if s = "landscape" then some .landscape
  else if s = "demolition" then some .demolition
  else if s = "cover_sheet" then some .coverSheet
  else if s = "legend" then some .legend
  else if s = "unknown" then some .unknown
  else none

/-- Dynamically typed Python/JSON values.  Numbers are represented as exact
decimals `mantissa / 10 ^ exp10` (Python's non-standard `Infinity`/`NaN`
JSON literals are outside this model). -/
inductive PyVal
  | none
  | bool (b : Bool)
  | num (mantissa : ℤ) (exp10 : ℕ)
  | str (s : String)
  | list (xs : List PyVal)
  | dict (entries : List (String × PyVal))

/-- Rational value of a `PyVal.num` payload. -/
def decimalToRat (m : ℤ) (e : ℕ) : ℚ := (m : ℚ) / (10 : ℚ) ^ e

/-- Python truthiness of a dynamically typed value. -/
def pyTruthy : PyVal → Bool
  | .none => false
  | .bool b => b
  | .num m _ => m ≠ 0
  | .str s => !s.isEmpty
  | .list xs => !xs.isEmpty
  | .dict es => !es.isEmpty

/-- Python `dict.get(key, default)` (last binding wins, as in a dict built
by repeated insertion). -/
def pyDictGet (entries : List (String × PyVal)) (key : String)
    (default : PyVal) : PyVal :=
  match entries.reverse.find? (fun e => e.1 = key) with
  | some e => e.2
  | Option.none => default

/-- `tools/common/schemas.py` `LocationInfo`. -/
structure LocationInfo where
  address : Option String := none
  postcode : Option String := none
  latitude : Option ℚ := none
  longitude : Option ℚ := none
  local_authority : Option String := none
  region : Option String := none
  country : String := "UK"
  what3words : Option String := none
deriving DecidableEq

/-- `tools/common/schemas.py` `ProjectMetadata` (dates modelled as opaque
naturals; a `datetime` object is always truthy). -/
structure ProjectMetadata where
  project_name : Option String := none
  project_number : Option String := none
  client_name : Option String := none
  architect : Option String := none
  architect_reference : Option String := none
  structural_engineer : Option String := none
  location : Option LocationInfo := none
  issue_date : Option ℕ := none
  stage : Option String := none
  building_type : Option String := none
  gross_internal_area_m2 : Option ℚ := none
  storeys : Option ℤ := none
  raw_extracted_fields : List (String × String) := []
deriving DecidableEq

/-- `tools/common/schemas.py` `DrawingInfo` (dates omitted; the dynamically
typed fields that the classifier copies straight from model JSON are kept
as `PyVal`). -/
structure DrawingInfo where
  file_path : String
  page_number : ℕ
  drawing_type : DrawingType
  drawing_number : PyVal := .none
  drawing_title : PyVal := .none
  revision : PyVal := .none
  scale : PyVal := .none
  dimensions_present : PyVal := .bool false
  annotations_present : PyVal := .bool false
  confidence : ℚ := 0
  extracted_text : Option String := none
  image_path : Option String := none
  measurement_potential : PyVal := .list []
  notes : PyVal := .list []

/-- `tools/common/schemas.py` `MissingItem`. -/
structure MissingItem where
  item_type : String
  description : String
  severity : String
  impact : String
  recommendation : String
deriving DecidableEq

/-- `tools/common/schemas.py` `CompletenessReport` (assessment date omitted). -/
structure CompletenessReport where
  project_id : String
  overall_completeness_pct : ℚ := 0
  status : String := "incomplete"
  drawing_types_present : List DrawingType := []
  specifications_present : Bool := false
  schedules_present : Bool := false
  missing_items : List MissingItem := []
  warnings : List String := []
  notes : List String := []
  proceed_recommendation : String := "hold"
  hold_reasons : List String := []

/-- `IntakeAnalyst.REQUIRED_DRAWINGS` with the `.get(project_type, default)`
lookup applied. -/
def requiredDrawings (projectType : String) : List DrawingType :=
  if projectType = "new_build_residential" then
    [.sitePlan, .floorPlan, .elevation, .sectionDrawing]
  else if projectType = "new_build_commercial" then
    [.sitePlan, .floorPlan, .elevation, .sectionDrawing, .roofPlan]
  else if projectType = "refurbishment" then
    [.floorPlan, .demolition]
  else
    [.floorPlan]

/-- `IntakeAnalyst._get_missing_impact`. -/
def getMissingImpact : DrawingType → String
  | .floorPlan => "Cannot measure floor areas, partitions, doors, or internal elements"
  | .sitePlan => "Cannot measure external works, site area, or verify building position"
  | .elevation => "Cannot measure external wall areas, windows, or cladding"
  | .sectionDrawing => "Cannot verify floor-to-floor heights or construction build-ups"
  | .roofPlan => "Cannot measure roof area or rainwater goods"
  | .demolition => "Cannot identify extent of demolition works for refurbishment"
  | .schedule => "Must count elements manually from drawings"
  | .structural => "Cannot verify foundation type or structural frame"
  | _ => "May affect measurement accuracy"

/-- `missing_type.value.replace('_', ' ')` (single-character replacement,
implemented as a character map). -/
def drawingTypeSpaced (t : DrawingType) : String :=
  ⟨t.value.data.map (fun c => if c = '_' then ' ' else c)⟩

/-- The `MissingItem` appended for a missing required drawing type
(`intake_analyst.py` lines 418-429). -/
def missingDrawingItem (t : DrawingType) : MissingItem :=
  { item_type := "drawing"
    description := pyTitle (drawingTypeSpaced t) ++ " drawing"
    severity :=
      if t = DrawingType.floorPlan ∨ t = DrawingType.sitePlan then "critical"
      else "important"
    impact := getMissingImpact t
    recommendation := "Request " ++ drawingTypeSpaced t ++ " from architect" }

/-- The distinct non-`UNKNOWN` drawing types of a drawing list
(`present_types` in `_assess_completeness`, a Python set). -/
def presentTypes (drawings : List DrawingInfo) : List DrawingType :=
  ((drawings.map (fun d => d.drawing_type)).filter
    (fun t => t ≠ DrawingType.unknown)).dedup

/-- The postcode metadata check of `_assess_completeness`
(`metadata.location and metadata.location.postcode`). -/
def metadataPostcodeTruthy (metadata : ProjectMetadata) : Bool :=
  match metadata.location with
  | none => false
  | some loc => optStrTruthy loc.postcode

/-- Python `'%.0f' % q` on a non-negative percentage: round half to even to
an integer and print it. -/
def fmtPct0 (q : ℚ) : String :=
  let f : ℤ := ⌊q⌋
  let r : ℚ := q - (f : ℚ)
  let n : ℤ :=
    if r < 1/2 then f
    else if r > 1/2 then f + 1
    else if f % 2 = 0 then f else f + 1
  toString n

/-- `IntakeAnalyst._assess_completeness` (`intake_analyst.py` lines 395-494).
The iteration order over the Python sets `present_types` / `missing_types`
is modelled by the order of first occurrence / the order of the required
list. -/
def assessCompleteness (projectId projectType : String)
    (drawings : List DrawingInfo) (metadata : ProjectMetadata) :
    CompletenessReport :=
  let present := presentTypes drawings
  let required := requiredDrawings projectType
  let missingTypes := required.filter (fun t => t ∉ present)
  let drawingItems := missingTypes.map missingDrawingItem
  let nameItems : List MissingItem :=
    if optStrTruthy metadata.project_name then []
    else
      [{ item_type := "metadata"
         description := "Project name not identified"
         severity := "minor"
         impact := "Project identification may be unclear"
         recommendation := "Confirm project name with client" }]
  let postcodeItems : List MissingItem :=
    if metadataPostcodeTruthy metadata then []
    else
      [{ item_type := "metadata"
         description := "Site location/postcode not identified"
         severity := "important"
         impact := "Cannot determine regional pricing factors"
         recommendation := "Request site address from client" }]
  let missingItems := drawingItems ++ nameItems ++ postcodeItems
  let lowConfidence := drawings.filter (fun d => d.confidence < 1/2)
  let lowConfWarnings : List String :=
    if lowConfidence.isEmpty then []
    else [toString lowConfidence.length ++
      " drawings have low classification confidence - manual review recommended"]
  let noDimensions := drawings.filter (fun d =>
    !pyTruthy d.dimensions_present &&
      (d.drawing_type = DrawingType.floorPlan ∨
       d.drawing_type = DrawingType.elevation ∨
       d.drawing_type = DrawingType.sectionDrawing))
  let noDimWarnings : List String :=
    if noDimensions.isEmpty then []
    else [toString noDimensions.length ++ " key drawings appear to lack dimensions"]
  let totalChecks := required.length + 3
  let passedChecks :=
    (required.filter (fun t => t ∈ present)).length
      + (if optStrTruthy metadata.project_name then 1 else 0)
      + (if metadataPostcodeTruthy metadata then 1 else 0)
      + (if optStrTruthy metadata.architect then 1 else 0)
  let pct : ℚ :=
    if 0 < totalChecks then ((passedChecks : ℚ) / (totalChecks : ℚ)) * 100 else 0
  let criticalMissing := missingItems.filter (fun m => m.severity = "critical")
  let hasCritical := !criticalMissing.isEmpty
  { project_id := projectId
    overall_completeness_pct := pct
    status :=
      if hasCritical then "critical_gaps"
      else if 80 ≤ pct then "complete"
      else "incomplete"
    drawing_types_present := present
    specifications_present := DrawingType.specification ∈ present
    schedules_present := DrawingType.schedule ∈ present
    missing_items := missingItems
    warnings := lowConfWarnings ++ noDimWarnings
    proceed_recommendation :=
      if hasCritical then "hold"
      else if 80 ≤ pct then "proceed"
      else "proceed_with_caution"
    hold_reasons :=
      if hasCritical then criticalMissing.map (fun m => m.description)
      else if 80 ≤ pct then []
      else ["Completeness at " ++ fmtPct0 pct ++ "% - some assumptions may be required"] }


/-- The missing-items list built by `_assess_completeness`, by definition. -/
theorem assess_missing_items_def (pid pt : String)
    (ds : List DrawingInfo) (md : ProjectMetadata) :
    (assessCompleteness pid pt ds md).missing_items =
      ((requiredDrawings pt).filter
          (fun t => t ∉ presentTypes ds)).map missingDrawingItem
        ++ (if optStrTruthy md.project_name then [] else
            [{ item_type := "metadata"
               description := "Project name not identified"
               severity := "minor"
               impact := "Project identification may be unclear"
               recommendation := "Confirm project name with client" }])
        ++ (if metadataPostcodeTruthy md then [] else
            [{ item_type := "metadata"
               description := "Site location/postcode not identified"
               severity := "important"
               impact := "Cannot determine regional pricing factors"
               recommendation := "Request site address from client" }]) := rfl

/-- The completeness percentage computed by `_assess_completeness`, by
definition. -/
theorem assess_pct_def (pid pt : String)
    (ds : List DrawingInfo) (md : ProjectMetadata) :
    (assessCompleteness pid pt ds md).overall_completeness_pct =
      (if 0 < (requiredDrawings pt).length + 3 then
        (((((requiredDrawings pt).filter (fun t => t ∈ presentTypes ds)).length
            + (if optStrTruthy md.project_name then 1 else 0)
            + (if metadataPostcodeTruthy md then 1 else 0)
            + (if optStrTruthy md.architect then 1 else 0) : ℕ)) : ℚ)
          / (((requiredDrawings pt).length + 3 : ℕ) : ℚ) * 100
      else 0) := rfl

/-- The proceed recommendation computed by `_assess_completeness`, by
definition. -/
theorem assess_rec_def (pid pt : String)
    (ds : List DrawingInfo) (md : ProjectMetadata) :
    (assessCompleteness pid pt ds md).proceed_recommendation =
      (if (!(((assessCompleteness pid pt ds md).missing_items).filter
            (fun m => m.severity = "critical")).isEmpty) = true then "hold"
       else if 80 ≤ (assessCompleteness pid pt ds md).overall_completeness_pct
          then "proceed"
       else "proceed_with_caution") := rfl

/-- The status computed by `_assess_completeness`, by definition. -/
theorem assess_status_def (pid pt : String)
    (ds : List DrawingInfo) (md : ProjectMetadata) :
    (assessCompleteness pid pt ds md).status =
      (if (!(((assessCompleteness pid pt ds md).missing_items).filter
            (fun m => m.severity = "critical")).isEmpty) = true then "critical_gaps"
       else if 80 ≤ (assessCompleteness pid pt ds md).overall_completeness_pct
          then "complete"
       else "incomplete") := rfl

/-- The hold reasons computed by `_assess_completeness`, by definition. -/
theorem assess_hold_reasons_def (pid pt : String)
    (ds : List DrawingInfo) (md : ProjectMetadata) :
    (assessCompleteness pid pt ds md).hold_reasons =
      (if (!(((assessCompleteness pid pt ds md).missing_items).filter
            (fun m => m.severity = "critical")).isEmpty) = true then
        ((((assessCompleteness pid pt ds md).missing_items).filter
            (fun m => m.severity = "critical")).map (fun m => m.description))
       else if 80 ≤ (assessCompleteness pid pt ds md).overall_completeness_pct
          then []
       else ["Completeness at "
          ++ fmtPct0 ((assessCompleteness pid pt ds md).overall_completeness_pct)
          ++ "% - some assumptions may be required"]) := rfl

/-- A critical filter on a missing-items list is non-empty exactly when a
critical item is a member. -/
theorem critical_filter_nonempty_iff (L : List MissingItem) :
    ((!(L.filter (fun m => m.severity = "critical")).isEmpty) = true) ↔
      ∃ m ∈ L, m.severity = "critical" := by
  simp [List.isEmpty_iff, List.filter_eq_nil_iff]

/-- C1: the completeness percentage equals
(required drawing types present + metadata checks passed) divided by
(required drawing types + 3), times 100, where the metadata checks are
project name, postcode and architect presence; and the proceed
recommendation is "hold" when a critical missing item exists, else
"proceed" when the percentage is at least 80, else "proceed_with_caution". -/
theorem c1_completeness_pct_and_recommendation
    (pid pt : String) (ds : List DrawingInfo) (md : ProjectMetadata) :
    (assessCompleteness pid pt ds md).overall_completeness_pct =
      ((((requiredDrawings pt).filter (fun t => t ∈ presentTypes ds)).length : ℚ)
        + ((if optStrTruthy md.project_name then 1 else 0)
          + (if metadataPostcodeTruthy md then 1 else 0)
          + (if optStrTruthy md.architect then 1 else 0)))
        / (((requiredDrawings pt).length : ℚ) + 3) * 100
    ∧ (assessCompleteness pid pt ds md).proceed_recommendation =
      (if ∃ m ∈ (assessCompleteness pid pt ds md).missing_items,
          m.severity = "critical" then "hold"
       else if 80 ≤ (assessCompleteness pid pt ds md).overall_completeness_pct
          then "proceed"
       else "proceed_with_caution") := by
  constructor
  · rw [assess_pct_def, if_pos (by omega)]
    push_cast
    ring_nf
  · rw [assess_rec_def]
    by_cases hc : ∃ m ∈ (assessCompleteness pid pt ds md).missing_items,
        m.severity = "critical"
    · rw [if_pos ((critical_filter_nonempty_iff _).2 hc), if_pos hc]
    · rw [if_neg (fun h => hc ((critical_filter_nonempty_iff _).1 h)), if_neg hc]

/-- C2: a missing item carries severity "critical" only when it is the
missing floor-plan or site-plan drawing (other missing drawings get
"important", metadata gaps get "minor" or "important"); and when a critical
item exists the status is "critical_gaps", the recommendation "hold", and
every critical item's description appears in the hold reasons. -/
theorem c2_critical_items_invariant
    (pid pt : String) (ds : List DrawingInfo) (md : ProjectMetadata) :
    (∀ m ∈ (assessCompleteness pid pt ds md).missing_items,
        m.severity = "critical" →
          m.item_type = "drawing" ∧
          (m.description = "Floor Plan drawing" ∨
           m.description = "Site Plan drawing"))
    ∧ (∀ m ∈ (assessCompleteness pid pt ds md).missing_items,
        m.item_type = "drawing" → m.severity ≠ "critical" →
          m.severity = "important")
    ∧ (∀ m ∈ (assessCompleteness pid pt ds md).missing_items,
        m.item_type = "metadata" →
          m.severity = "minor" ∨ m.severity = "important")
    ∧ ((∃ m ∈ (assessCompleteness pid pt ds md).missing_items,
          m.severity = "critical") →
        (assessCompleteness pid pt ds md).status = "critical_gaps" ∧
        (assessCompleteness pid pt ds md).proceed_recommendation = "hold" ∧
        ∀ m ∈ (assessCompleteness pid pt ds md).missing_items,
          m.severity = "critical" →
            m.description ∈ (assessCompleteness pid pt ds md).hold_reasons) := by
  have hdrawing : ∀ m ∈ (assessCompleteness pid pt ds md).missing_items,
      (∃ t, m = missingDrawingItem t) ∨ m.item_type = "metadata" := by
    intro m hm
    rw [assess_missing_items_def] at hm
    rcases List.mem_append.1 hm with h | h
    · rcases List.mem_append.1 h with h' | h'
      · rcases List.mem_map.1 h' with ⟨t, _, ht⟩
        exact Or.inl ⟨t, ht.symm⟩
      · split at h' <;> simp_all
    · split at h <;> simp_all
  have hmeta : ∀ m ∈ (assessCompleteness pid pt ds md).missing_items,
      m.item_type = "metadata" →
        m.severity = "minor" ∨ m.severity = "important" := by
    intro m hm hmd
    rw [assess_missing_items_def] at hm
    rcases List.mem_append.1 hm with h | h
    · rcases List.mem_append.1 h with h' | h'
      · rcases List.mem_map.1 h' with ⟨t, _, ht⟩
        subst ht
        simp [missingDrawingItem] at hmd
      · split at h' <;> simp_all
    · split at h <;> simp_all
  refine ⟨?_, ?_, hmeta, ?_⟩
  · intro m hm hcrit
    rcases hdrawing m hm with ⟨t, ht⟩ | hmd
    · subst ht
      unfold missingDrawingItem at hcrit ⊢
      by_cases hts : t = DrawingType.floorPlan ∨ t = DrawingType.sitePlan
      · refine ⟨rfl, ?_⟩
        rcases hts with h | h <;> subst h <;> simp [drawingTypeSpaced,
          DrawingType.value, pyTitle, pyTitleAux]
      · rw [if_neg hts] at hcrit
        simp at hcrit
    · rcases hmeta m hm hmd with h | h <;> rw [h] at hcrit <;> simp at hcrit
  · intro m hm hdr hne
    rcases hdrawing m hm with ⟨t, ht⟩ | hmd
    · subst ht
      unfold missingDrawingItem at hne ⊢
      split at hne <;> simp_all
    · rw [hmd] at hdr
      simp at hdr
  · intro hc
    refine ⟨?_, ?_, ?_⟩
    · rw [assess_status_def, if_pos ((critical_filter_nonempty_iff _).2 hc)]
    · rw [assess_rec_def, if_pos ((critical_filter_nonempty_iff _).2 hc)]
    · intro m hm hcrit
      rw [assess_hold_reasons_def, if_pos ((critical_filter_nonempty_iff _).2 hc)]
      exact List.mem_map_of_mem _ (List.mem_filter.2 ⟨hm, by simpa using hcrit⟩)

/-- `tools/pdf_parser/parser.py` `PageContent` (page geometry floats are
omitted; no property depends on them). -/
structure PageContent where
  page_number : ℕ
  text : String
  has_images : Bool := false
  image_count : ℕ := 0
  rotation : ℤ := 0
  extracted_image_path : Option String := none

/-- `tools/pdf_parser/parser.py` `PDFParserResult` (the PDF metadata dict is
omitted). -/
structure PDFParserResult where
  file_path : String
  file_name : String
  file_size_bytes : ℕ := 0
  hash_md5 : String := ""
  page_count : ℕ := 0
  pages : List PageContent := []
  is_scanned : Bool := false
  has_text_layer : Bool := true
  extraction_quality : String := "good"

/-- The per-file acceptance test of `parse_directory`'s loop:
`result.success and result.data` (a dataclass instance is truthy, so the
data test is `is not None`). -/
def fileOutcomeAccepted (r : ToolResult PDFParserResult) : Bool :=
  r.success && r.data.isSome

/-- The accepted per-file results collected by `parse_directory`'s loop. -/
def acceptedResults (outs : List (ToolResult PDFParserResult)) :
    List PDFParserResult :=
  outs.filterMap (fun r => if fileOutcomeAccepted r then r.data else none)

/-- The per-file errors aggregated by `parse_directory`'s loop (errors are
extended only for rejected outcomes). -/
def rejectedErrors (outs : List (ToolResult PDFParserResult)) :
    List ToolError :=
  ((outs.filter (fun r => !fileOutcomeAccepted r)).map ToolResult.errors).flatten

/-- The warnings aggregated by `parse_directory`'s loop (extended for every
outcome). -/
def batchWarnings (outs : List (ToolResult PDFParserResult)) : List String :=
  (outs.map ToolResult.warnings).flatten

/-- `PDFParser.parse_directory` (`parser.py` lines 354-428).  The file
system and the per-file `execute` calls are modelled by the oracle
argument: `none` when the directory does not exist, otherwise
`some outcomes`, listing in glob order the `ToolResult` that `execute`
produced for each PDF file the glob found (empty when no PDFs found). -/
def parseDirectory (directory : String)
    (dirListing : Option (List (ToolResult PDFParserResult))) :
    ToolResult (List PDFParserResult) :=
  match dirListing with
  | none =>
    { status := ToolStatus.failed
      errors := [createError "PDF_PARSER" "DIR_NOT_FOUND"
        ("Directory not found: " ++ directory) false] }
  | some outcomes =>
    if outcomes.isEmpty then
      { status := ToolStatus.partialResult
        data := some []
        warnings := ["No PDF files found in directory"] }
    else if (acceptedResults outcomes).isEmpty then
      { status := ToolStatus.failed
        errors := rejectedErrors outcomes
        warnings := batchWarnings outcomes }
    else
      { status :=
          if (rejectedErrors outcomes).isEmpty then ToolStatus.success
          else ToolStatus.partialResult
        data := some (acceptedResults outcomes)
        errors := rejectedErrors outcomes
        warnings := batchWarnings outcomes }

/-- `parse_directory` on an existing directory, by definition. -/
theorem parseDirectory_some_def (directory : String)
    (outs : List (ToolResult PDFParserResult)) :
    parseDirectory directory (some outs) =
      (if outs.isEmpty then
        { status := ToolStatus.partialResult
          data := some []
          warnings := ["No PDF files found in directory"] }
      else if (acceptedResults outs).isEmpty then
        { status := ToolStatus.failed
          errors := rejectedErrors outs
          warnings := batchWarnings outs }
      else
        { status :=
            if (rejectedErrors outs).isEmpty then ToolStatus.success
            else ToolStatus.partialResult
          data := some (acceptedResults outs)
          errors := rejectedErrors outs
          warnings := batchWarnings outs }) := rfl

/-- The accepted-results list is empty exactly when no per-file outcome
passes `result.success and result.data`. -/
theorem acceptedResults_eq_nil_iff (outs : List (ToolResult PDFParserResult)) :
    acceptedResults outs = [] ↔ ∀ r ∈ outs, ¬(fileOutcomeAccepted r = true) := by
  rw [acceptedResults, List.filterMap_eq_nil_iff]
  constructor
  · intro h r hr hacc
    have hd := h r hr
    rw [if_pos hacc] at hd
    have : r.data.isSome = true := by
      have h2 := hacc
      unfold fileOutcomeAccepted at h2
      simp at h2
      exact h2.2
    simp_all
  · intro h r hr
    rw [if_neg (h r hr)]

/-- C4 counterexample: a directory that exists and contains one PDF whose
parse fails yields a FAILED batch result, so FAILED does not occur only
when the directory is missing. -/
theorem c4_counterexample_failed_with_existing_directory :
    (parseDirectory "plans"
        (some [{ status := ToolStatus.failed
                 errors := [createError "PDF_PARSER" "PARSE_ERROR"
                   "Failed to parse PDF: broken" false] }])).status =
      ToolStatus.failed
    ∧ (some [({ status := ToolStatus.failed
                errors := [createError "PDF_PARSER" "PARSE_ERROR"
                  "Failed to parse PDF: broken" false] } :
              ToolResult PDFParserResult)] ≠
        (none : Option (List (ToolResult PDFParserResult)))) := by
  exact ⟨rfl, by simp⟩

/-- C4 (amended): `parse_directory` returns FAILED exactly when the
directory does not exist or PDFs were found but none parsed successfully;
an existing directory with no PDFs gives an empty list plus a warning
(PARTIAL, not FAILED); and when at least one found PDF parses the batch
does not fail, yielding the accepted results with the per-file errors of
the rejected files aggregated into the result. -/
theorem c4_parse_directory_failure_modes (directory : String)
    (outs : List (ToolResult PDFParserResult)) :
    (parseDirectory directory none).status = ToolStatus.failed
    ∧ parseDirectory directory (some []) =
        { status := ToolStatus.partialResult
          data := some []
          warnings := ["No PDF files found in directory"] }
    ∧ ((∃ r ∈ outs, fileOutcomeAccepted r) →
        (parseDirectory directory (some outs)).status ≠ ToolStatus.failed
        ∧ (parseDirectory directory (some outs)).data =
            some (acceptedResults outs)
        ∧ (parseDirectory directory (some outs)).errors = rejectedErrors outs)
    ∧ ((parseDirectory directory (some outs)).status = ToolStatus.failed ↔
        outs ≠ [] ∧ ∀ r ∈ outs, ¬(fileOutcomeAccepted r = true)) := by
  refine ⟨rfl, rfl, ?_, ?_⟩
  · rintro ⟨r, hr, hacc⟩
    have houts : outs.isEmpty = false := by
      cases outs with
      | nil => cases hr
      | cons a l => rfl
    have hnil : ¬(acceptedResults outs).isEmpty = true := by
      intro h
      exact (acceptedResults_eq_nil_iff outs).1 (List.isEmpty_iff.1 h) r hr hacc
    rw [parseDirectory_some_def, if_neg (by simp [houts]), if_neg hnil]
    refine ⟨?_, rfl, rfl⟩
    split <;> simp
  · rw [parseDirectory_some_def]
    cases houts : outs.isEmpty with
    | true =>
      rw [if_pos rfl]
      simp [List.isEmpty_iff.1 houts]
    | false =>
      rw [if_neg (by simp)]
      by_cases hnil : acceptedResults outs = []
      · rw [if_pos (List.isEmpty_iff.2 hnil)]
        constructor
        · intro _
          refine ⟨?_, (acceptedResults_eq_nil_iff outs).1 hnil⟩
          intro h
          rw [h] at houts
          simp at houts
        · intro _
          rfl
      · rw [if_neg (fun h => hnil (List.isEmpty_iff.1 h))]
        constructor
        · intro h
          split at h <;> simp at h
        · rintro ⟨-, hall⟩
          exact absurd ((acceptedResults_eq_nil_iff outs).2 hall) hnil

/-- Witness for C4: a batch with one successful and one failed parse is not
FAILED and carries the failed file's errors. -/
theorem c4_witness :
    (parseDirectory "plans"
        (some [{ status := ToolStatus.success
                 data := some { file_path := "plans/a.pdf", file_name := "a.pdf" } },
               { status := ToolStatus.failed
                 errors := [createError "PDF_PARSER" "PARSE_ERROR"
                   "Failed to parse PDF: broken" false] }])).status ≠
      ToolStatus.failed :=
  ((c4_parse_directory_failure_modes "plans"
      [{ status := ToolStatus.success
         data := some { file_path := "plans/a.pdf", file_name := "a.pdf" } },
       { status := ToolStatus.failed
         errors := [createError "PDF_PARSER" "PARSE_ERROR"
           "Failed to parse PDF: broken" false] }]).2.2.1
    ⟨{ status := ToolStatus.success
       data := some { file_path := "plans/a.pdf", file_name := "a.pdf" } },
     List.mem_cons_self _ _, rfl⟩).1

/-- ASCII digit test. -/
def isDigitChar (c : Char) : Bool := '0' ≤ c && c ≤ '9'

/-- Numeric value of a digit list (most significant first). -/
def digitsVal (l : List Char) : ℕ :=
  l.foldl (fun a c => a * 10 + (c.toNat - 48)) 0

/-- Leading `+`/`-` sign of a Python numeric literal. -/
def parseIntSign : List Char → ℤ × List Char
  | '+' :: cs => (1, cs)
  | '-' :: cs => (-1, cs)
  | cs => (1, cs)

/-- Split a character list at the first `e`/`E` (mantissa, exponent). -/
def splitAtExp : List Char → List Char × Option (List Char)
  | [] => ([], none)
  | c :: cs =>
    if c = 'e' || c = 'E' then ([], some cs)
    else
      let r := splitAtExp cs
      (c :: r.1, r.2)

/-- Split a character list at the first `.` (integer part, fraction). -/
def splitAtDot : List Char → List Char × Option (List Char)
  | [] => ([], none)
  | c :: cs =>
    if c = '.' then ([], some cs)
    else
      let r := splitAtDot cs
      (c :: r.1, r.2)

/-- Python `float(str)`: `some` of the parsed value, `none` when the call
would raise `ValueError`.  Covers sign, decimal digits, fraction and
exponent; the `inf`/`nan` words and digit-group underscores accepted by
CPython are outside this model. -/
def pyFloatOfString (s : String) : Option ℚ :=
  let l := pyStripL s.data
  let sgnRest := parseIntSign l
  let mantExp := splitAtExp sgnRest.2
  let ipFp := splitAtDot mantExp.1
  let ip := ipFp.1
  let fp := (ipFp.2).getD []
  if ip.all isDigitChar && fp.all isDigitChar && !(ip.isEmpty && fp.isEmpty) then
    match mantExp.2 with
    | none =>
      some ((sgnRest.1 : ℚ) * (digitsVal (ip ++ fp) : ℚ) / (10 : ℚ) ^ fp.length)
    | some e =>
      let esgnRest := parseIntSign e
      if !esgnRest.2.isEmpty && esgnRest.2.all isDigitChar then
        some ((sgnRest.1 : ℚ) * (digitsVal (ip ++ fp) : ℚ) *
          (10 : ℚ) ^ (esgnRest.1 * (digitsVal esgnRest.2 : ℤ) - (fp.length : ℤ)))
      else none
  else none

/-- `tools/metadata_extractor/extractor.py` `ExtractionResult`. -/
structure ExtractionResult where
  metadata : ProjectMetadata
  extraction_sources : List String := []
  confidence : ℚ := 0
  raw_text_used : Option String := none

/-- Oracle standing for the regex layer of `MetadataExtractor`: for each
pattern family the value the corresponding `_extract_pattern` /
`_count_storeys` / `_extract_location` / `_parse_date` / `_normalize_stage`
call returns on a given text (`extractor.py` lines 124-244).  `locPostcode`
and `locAddress` are the final `postcode`/`address` fields the
`_extract_location` result carries. -/
structure ExtractionOracle where
  project_name : String → Option String
  project_number : String → Option String
  client : String → Option String
  architect : String → Option String
  structural_engineer : String → Option String
  date_str : String → Option String
  parseDate : String → Option ℕ
  stage_str : String → Option String
  normalizeStage : String → String
  gia_str : String → Option String
  storeys : String → Option ℤ
  locPostcode : String → Option String
  locAddress : String → Option String

/-- `MetadataExtractor._calculate_confidence` (`extractor.py` lines
246-284): weighted sum over the populated (truthy) metadata fields. -/
def calculateConfidence (metadata : ProjectMetadata) : ℚ :=
  (if optStrTruthy metadata.project_name then (0.20 : ℚ) else 0)
  + (if optStrTruthy metadata.project_number then (0.10 : ℚ) else 0)
  + (if optStrTruthy metadata.client_name then (0.10 : ℚ) else 0)
  + (if optStrTruthy metadata.architect then (0.10 : ℚ) else 0)
  + (if (match metadata.location with
        | none => false
        | some loc => optStrTruthy loc.postcode || optStrTruthy loc.address)
      then (0.15 : ℚ) else 0)
  + (if metadata.issue_date.isSome then (0.10 : ℚ) else 0)
  + (if optStrTruthy metadata.stage then (0.05 : ℚ) else 0)
  + (if optStrTruthy metadata.building_type then (0.10 : ℚ) else 0)
  + (if optRatTruthy metadata.gross_internal_area_m2 then (0.05 : ℚ) else 0)
  + (if optIntTruthy metadata.storeys then (0.05 : ℚ) else 0)

/-- The `ExtractionResult` that `MetadataExtractor.execute` builds on a
non-empty input (`extractor.py` lines 314-397), with the regex layer
supplied by the oracle. -/
def metadataResultOf (oracle : ExtractionOracle) (text : String)
    (source_description : Option String) : ExtractionResult :=
  let project_name := oracle.project_name text
  let project_number := oracle.project_number text
  let client := oracle.client text
  let architect := oracle.architect text
  let structural := oracle.structural_engineer text
  let date_str := oracle.date_str text
  let issue_date := match date_str with
    | none => none
    | some d => oracle.parseDate d
  let stage := (oracle.stage_str text).map oracle.normalizeStage
  let gia := match oracle.gia_str text with
    | none => none
    | some g => pyFloatOfString ⟨g.data.filter (fun c => c ≠ ',')⟩
  let storeys := oracle.storeys text
  let locPostcode := oracle.locPostcode text
  let locAddress := oracle.locAddress text
  let metadata : ProjectMetadata :=
    { project_name := project_name
      project_number := project_number
      client_name := client
      architect := architect
      structural_engineer := structural
      location :=
        if optStrTruthy locPostcode || optStrTruthy locAddress then
          some { postcode := locPostcode, address := locAddress }
        else none
      issue_date := issue_date
      stage := stage
      gross_internal_area_m2 := gia
      storeys := storeys }
  { metadata := metadata
    extraction_sources := match source_description with
      | none => []
      | some d => [d]
    confidence := calculateConfidence metadata
    raw_text_used :=
      some (if 500 < text.length then ⟨text.data.take 500⟩ else text) }

/-- The parse warnings `MetadataExtractor.execute` accumulates before the
status decision (date and GIA parse failures, `extractor.py` lines
339-362). -/
def metadataParseWarnings (oracle : ExtractionOracle) (text : String) :
    List String :=
  (match oracle.date_str text with
    | none => []
    | some d =>
      if (oracle.parseDate d).isNone then ["Could not parse date: " ++ d]
      else [])
  ++ (match oracle.gia_str text with
    | none => []
    | some g =>
      if (pyFloatOfString ⟨g.data.filter (fun c => c ≠ ',')⟩).isNone then
        ["Could not parse GIA: " ++ g]
      else [])

/-- `MetadataExtractor.execute` (`extractor.py` lines 286-413), with the
regex layer supplied by the oracle. -/
def metadataExecute (oracle : ExtractionOracle) (text : String)
    (source_description : Option String) : ToolResult ExtractionResult :=
  if text.isEmpty || (pyStrip text).isEmpty then
    { status := ToolStatus.failed
      errors := [createError "METADATA_EXTRACTOR" "EMPTY_INPUT"
        "No text provided for extraction" false] }
  else
    let result := metadataResultOf oracle text source_description
    { status :=
        if result.confidence < (0.2 : ℚ) then ToolStatus.partialResult
        else ToolStatus.success
      data := some result
      warnings :=
        metadataParseWarnings oracle text ++
          (if result.confidence < (0.2 : ℚ) then
            ["Low extraction confidence - limited metadata found"]
          else []) }

/-- An `ite` of a nonnegative weight against `0` is between `0` and the
weight. -/
theorem ite_weight_bounds (c : Prop) [Decidable c] (w : ℚ) (hw : 0 ≤ w) :
    0 ≤ (if c then w else 0) ∧ (if c then w else 0) ≤ w := by
  split
  · exact ⟨hw, le_refl w⟩
  · exact ⟨le_refl 0, hw⟩

/-- The extractor's weighted confidence always lies in `[0, 1]` (the ten
weights are nonnegative and sum to `1.00`). -/
theorem calculateConfidence_mem_unit (metadata : ProjectMetadata) :
    0 ≤ calculateConfidence metadata ∧ calculateConfidence metadata ≤ 1 := by
  unfold calculateConfidence
  obtain ⟨l1, u1⟩ := ite_weight_bounds (optStrTruthy metadata.project_name = true)
    (0.20 : ℚ) (by norm_num)
  obtain ⟨l2, u2⟩ := ite_weight_bounds (optStrTruthy metadata.project_number = true)
    (0.10 : ℚ) (by norm_num)
  obtain ⟨l3, u3⟩ := ite_weight_bounds (optStrTruthy metadata.client_name = true)
    (0.10 : ℚ) (by norm_num)
  obtain ⟨l4, u4⟩ := ite_weight_bounds (optStrTruthy metadata.architect = true)
    (0.10 : ℚ) (by norm_num)
  obtain ⟨l5, u5⟩ := ite_weight_bounds
    ((match metadata.location with
      | none => false
      | some loc => optStrTruthy loc.postcode || optStrTruthy loc.address) = true)
    (0.15 : ℚ) (by norm_num)
  obtain ⟨l6, u6⟩ := ite_weight_bounds (metadata.issue_date.isSome = true)
    (0.10 : ℚ) (by norm_num)
  obtain ⟨l7, u7⟩ := ite_weight_bounds (optStrTruthy metadata.stage = true)
    (0.05 : ℚ) (by norm_num)
  obtain ⟨l8, u8⟩ := ite_weight_bounds (optStrTruthy metadata.building_type = true)
    (0.10 : ℚ) (by norm_num)
  obtain ⟨l9, u9⟩ := ite_weight_bounds
    (optRatTruthy metadata.gross_internal_area_m2 = true) (0.05 : ℚ) (by norm_num)
  obtain ⟨l10, u10⟩ := ite_weight_bounds (optIntTruthy metadata.storeys = true)
    (0.05 : ℚ) (by norm_num)
  constructor
  · positivity
  · refine le_trans
      (add_le_add (add_le_add (add_le_add (add_le_add (add_le_add (add_le_add
        (add_le_add (add_le_add (add_le_add u1 u2) u3) u4) u5) u6) u7) u8) u9) u10)
      (by norm_num)

/-- C6: `MetadataExtractor.execute` returns FAILED (with no data) exactly
when the input text is empty or whitespace-only; on every non-empty input
it returns an `ExtractionResult`, with status PARTIAL plus a warning when
the computed confidence is below 0.2 and SUCCESS otherwise. -/
theorem c6_metadata_execute_status (oracle : ExtractionOracle) (text : String)
    (src : Option String) :
    ((metadataExecute oracle text src).status = ToolStatus.failed ↔
      (text.isEmpty || (pyStrip text).isEmpty) = true)
    ∧ ((metadataExecute oracle text src).status = ToolStatus.failed →
        (metadataExecute oracle text src).data = none)
    ∧ ((text.isEmpty || (pyStrip text).isEmpty) = false →
        (metadataExecute oracle text src).data =
            some (metadataResultOf oracle text src)
          ∧ (metadataExecute oracle text src).status =
              (if (metadataResultOf oracle text src).confidence < (0.2 : ℚ)
               then ToolStatus.partialResult
               else ToolStatus.success)
          ∧ ((metadataResultOf oracle text src).confidence < (0.2 : ℚ) →
              "Low extraction confidence - limited metadata found" ∈
                (metadataExecute oracle text src).warnings)) := by
  unfold metadataExecute
  cases hempty : (text.isEmpty || (pyStrip text).isEmpty) with
  | true =>
    rw [if_pos rfl]
    refine ⟨by simp, fun _ => rfl, fun h => by cases h⟩
  | false =>
    rw [if_neg (by simp)]
    dsimp only
    refine ⟨?_, ?_, ?_⟩
    · constructor
      · intro h
        by_cases hc : (metadataResultOf oracle text src).confidence < (0.2 : ℚ)
        · rw [if_pos hc] at h
          cases h
        · rw [if_neg hc] at h
          cases h
      · intro h
        cases h
    · intro h
      exfalso
      by_cases hc : (metadataResultOf oracle text src).confidence < (0.2 : ℚ)
      · rw [if_pos hc] at h
        cases h
      · rw [if_neg hc] at h
        cases h
    · intro _
      refine ⟨rfl, rfl, fun hconf => ?_⟩
      rw [if_pos hconf]
      simp

/-- An extraction oracle for a text in which no pattern matches. -/
def emptyExtractionOracle : ExtractionOracle :=
  { project_name := fun _ => none
    project_number := fun _ => none
    client := fun _ => none
    architect := fun _ => none
    structural_engineer := fun _ => none
    date_str := fun _ => none
    parseDate := fun _ => none
    stage_str := fun _ => none
    normalizeStage := fun s => s
    gia_str := fun _ => none
    storeys := fun _ => none
    locPostcode := fun _ => none
    locAddress := fun _ => none }

/-- Witness for C6: a non-empty input where nothing is extracted gives
confidence 0 < 0.2 and status PARTIAL, not FAILED. -/
theorem c6_witness :
    (metadataExecute emptyExtractionOracle "Site plans attached" none).status =
      ToolStatus.partialResult := by
  have hconf : (metadataResultOf emptyExtractionOracle "Site plans attached"
      none).confidence < (0.2 : ℚ) := by
    norm_num [metadataResultOf, calculateConfidence, emptyExtractionOracle,
      optStrTruthy, optRatTruthy, optIntTruthy]
  obtain ⟨-, hstat, -⟩ :=
    (c6_metadata_execute_status emptyExtractionOracle "Site plans attached"
      none).2.2 (by decide)
  rw [hstat, if_pos hconf]

/-- Python `x or y` on two `Optional[str]` values: `y` when `x` is falsy
(`None` or `""`). -/
def orOptStr (a b : Option String) : Option String :=
  if optStrTruthy a then a else b

/-- `tools/geocoder/geocoder.py` `GeocodingResult` (`raw_response` omitted). -/
structure GeocodingResult where
  location : LocationInfo
  source : String
  match_quality : String := "exact"
deriving DecidableEq

/-- Fields of a postcodes.io response used by `_geocode_postcodes_io`
(`geocoder.py` lines 86-96). -/
structure PostcodesIoResponse where
  latitude : Option ℚ := none
  longitude : Option ℚ := none
  admin_district : Option String := none
  region : Option String := none
  country : Option String := none

/-- `Geocoder._geocode_postcodes_io` result construction (`geocoder.py`
lines 89-103), given the normalized postcode and the HTTP response. -/
def geocodePostcodesIo (normalized : String) (resp : PostcodesIoResponse) :
    GeocodingResult :=
  { location :=
      { postcode := some normalized
        latitude := resp.latitude
        longitude := resp.longitude
        local_authority := resp.admin_district
        region := resp.region
        country := resp.country.getD "UK" }
    source := "postcodes.io"
    match_quality := "exact" }

/-- Fields of a Nominatim response used by `_geocode_nominatim`
(`geocoder.py` lines 131-151). -/
structure NominatimResponse where
  display_name : Option String := none
  postcode : Option String := none
  lat : ℚ := 0
  lon : ℚ := 0
  city : Option String := none
  town : Option String := none
  county : Option String := none
  state : Option String := none
  country : Option String := none
  typeStr : String := ""

/-- `Geocoder._geocode_nominatim` result construction (`geocoder.py` lines
134-158). -/
def geocodeNominatim (resp : NominatimResponse) : GeocodingResult :=
  { location :=
      { address := resp.display_name
        postcode := resp.postcode
        latitude := some resp.lat
        longitude := some resp.lon
        local_authority := orOptStr resp.city resp.town
        region := orOptStr resp.county resp.state
        country := resp.country.getD "UK" }
    source := "nominatim"
    match_quality :=
      if resp.typeStr = "house" ∨ resp.typeStr = "building" ∨
          resp.typeStr = "address" then "exact"
      else if resp.typeStr = "street" ∨ resp.typeStr = "road" then "partial"
      else "approximate" }

/-- Fields of a Google Geocoding response used by `_geocode_google`
(`geocoder.py` lines 184-213). -/
structure GoogleResponse where
  formatted_address : Option String := none
  postal_code : Option String := none
  lat : Option ℚ := none
  lng : Option ℚ := none
  postal_town : Option String := none
  locality : Option String := none
  admin_area_2 : Option String := none
  country : Option String := none
  location_type : String := ""

/-- `Geocoder._geocode_google` result construction (`geocoder.py` lines
195-220). -/
def geocodeGoogle (resp : GoogleResponse) : GeocodingResult :=
  { location :=
      { address := resp.formatted_address
        postcode := resp.postal_code
        latitude := resp.lat
        longitude := resp.lng
        local_authority := orOptStr resp.postal_town resp.locality
        region := resp.admin_area_2
        country := resp.country.getD "UK" }
    source := "google"
    match_quality :=
      if resp.location_type = "ROOFTOP" then "exact"
      else if resp.location_type = "RANGE_INTERPOLATED" then "partial"
      else "approximate" }

/-- A `GeocodingResult` produced by one of the three provider functions. -/
def FromProvider (g : GeocodingResult) : Prop :=
  (∃ pc resp, g = geocodePostcodesIo pc resp)
  ∨ (∃ resp, g = geocodeNominatim resp)
  ∨ (∃ resp, g = geocodeGoogle resp)

/-- No provider ever sets `what3words` on the geocoded location. -/
theorem fromProvider_what3words_none (g : GeocodingResult)
    (h : FromProvider g) : g.location.what3words = none := by
  rcases h with ⟨pc, resp, rfl⟩ | ⟨resp, rfl⟩ | ⟨resp, rfl⟩ <;> rfl

/-- The merge of `Geocoder.enrich_location` (`geocoder.py` lines 436-446):
keep truthy original fields, fill the rest from the geocoded location,
coordinates always from the geocoded location, `what3words` copied from
the input. -/
def mergeLocations (loc geocoded : LocationInfo) : LocationInfo :=
  { address := orOptStr loc.address geocoded.address
    postcode := orOptStr loc.postcode geocoded.postcode
    latitude := geocoded.latitude
    longitude := geocoded.longitude
    local_authority := orOptStr loc.local_authority geocoded.local_authority
    region := orOptStr loc.region geocoded.region
    country := if loc.country.isEmpty then geocoded.country else loc.country
    what3words := loc.what3words }

/-- `Geocoder.enrich_location` (`geocoder.py` lines 395-453), with the
inner `execute` call's result supplied as an argument. -/
def enrichLocation (loc : LocationInfo)
    (res : ToolResult GeocodingResult) : ToolResult LocationInfo :=
  if !optStrTruthy loc.postcode && !optStrTruthy loc.address then
    { status := ToolStatus.partialResult
      data := some loc
      warnings := ["No postcode or address to enrich from"] }
  else
    match res.data, res.success with
    | some geoRes, true =>
      { status := ToolStatus.success
        data := some (mergeLocations loc geoRes.location)
        warnings := res.warnings }
    | _, _ =>
      { status := ToolStatus.partialResult
        data := some loc
        errors := res.errors
        warnings := res.warnings ++ ["Could not enrich location"] }

/-- C7: when geocoding succeeds, `enrich_location` preserves every truthy
input field, fills only the empty ones from the geocoded result (the
geocoded result never carries a `what3words`, so that field is simply the
input's), and always takes latitude/longitude from the geocoded result. -/
theorem c7_enrich_location_merge (loc : LocationInfo)
    (res : ToolResult GeocodingResult) (g : GeocodingResult)
    (hq : (optStrTruthy loc.postcode || optStrTruthy loc.address) = true)
    (hs : res.success = true) (hd : res.data = some g)
    (hp : FromProvider g) :
    (enrichLocation loc res).status = ToolStatus.success
    ∧ ∃ enriched, (enrichLocation loc res).data = some enriched
      ∧ enriched.address =
          (if optStrTruthy loc.address then loc.address else g.location.address)
      ∧ enriched.postcode =
          (if optStrTruthy loc.postcode then loc.postcode else g.location.postcode)
      ∧ enriched.local_authority =
          (if optStrTruthy loc.local_authority then loc.local_authority
           else g.location.local_authority)
      ∧ enriched.region =
          (if optStrTruthy loc.region then loc.region else g.location.region)
      ∧ enriched.country =
          (if loc.country.isEmpty then g.location.country else loc.country)
      ∧ enriched.what3words = loc.what3words
      ∧ g.location.what3words = none
      ∧ enriched.latitude = g.location.latitude
      ∧ enriched.longitude = g.location.longitude := by
  have hcond : (!optStrTruthy loc.postcode && !optStrTruthy loc.address) = false := by
    cases hpc : optStrTruthy loc.postcode with
    | true => rfl
    | false =>
      cases had : optStrTruthy loc.address with
      | true => rfl
      | false => rw [hpc, had] at hq; cases hq
  unfold enrichLocation
  rw [hcond, hd, hs]
  dsimp only
  exact ⟨rfl, mergeLocations loc g.location, rfl, rfl, rfl, rfl, rfl, rfl, rfl,
    fromProvider_what3words_none g hp, rfl, rfl⟩

/-- Witness for C7 at a concrete successfully geocoded postcode. -/
theorem c7_witness :
    (enrichLocation { postcode := some "SW1A 1AA" }
        { status := ToolStatus.success
          data := some (geocodePostcodesIo "SW1A 1AA"
            { admin_district := some "Westminster"
              region := some "London" }) }).status = ToolStatus.success :=
  (c7_enrich_location_merge { postcode := some "SW1A 1AA" }
      { status := ToolStatus.success
        data := some (geocodePostcodesIo "SW1A 1AA"
          { admin_district := some "Westminster"
            region := some "London" }) }
      (geocodePostcodesIo "SW1A 1AA"
        { admin_district := some "Westminster"
          region := some "London" })
      (by decide) rfl rfl
      (Or.inl ⟨"SW1A 1AA",
        { admin_district := some "Westminster", region := some "London" }, rfl⟩)).1

/-- Tail of the UK postcode regex after the optional third character:
`\s*([0-9][A-Z]{2})$` (whitespace cannot overlap the digit/letter
classes, so the greedy `\s*` consumes exactly the whitespace run). -/
def ukPostcodeTail (l : List Char) : Bool :=
  match l.dropWhile isPySpace with
  | [d, a, b] => isDigitChar d && a.isAlpha && b.isAlpha
  | _ => false

/-- The part of the UK postcode regex after the leading letters:
`[0-9][0-9A-Z]?` then the tail, with the regex engine's backtracking over
the optional character made explicit. -/
def ukPostcodeAfterLetters : List Char → Bool
  | [] => false
  | d :: rest =>
    isDigitChar d &&
      (match rest with
       | [] => false
       | x :: rest2 =>
         ((isDigitChar x || x.isAlpha) && ukPostcodeTail rest2)
           || ukPostcodeTail rest)

/-- `Geocoder.UK_POSTCODE_PATTERN.match(text)` on a character list:
`^([A-Z]{1,2}[0-9][0-9A-Z]?)\s*([0-9][A-Z]{2})$` with `IGNORECASE`. -/
def ukPostcodeMatch : List Char → Bool
  | [] => false
  | a :: rest =>
    a.isAlpha &&
      ((match rest with
        | b :: rest2 => (b.isAlpha && ukPostcodeAfterLetters rest2)
            || ukPostcodeAfterLetters rest
        | [] => false))

/-- `Geocoder._is_uk_postcode` (`geocoder.py` lines 65-67). -/
def isUkPostcode (s : String) : Bool :=
  ukPostcodeMatch (pyStripL s.data)

/-- In-process state of a `Geocoder` instance: configuration plus the
flat result cache (an association list; the most recent binding wins,
matching dict insertion). -/
structure GeocoderState where
  primary_provider : String := "postcodes_io"
  google_api_key : Option String := none
  cache : List (String × GeocodingResult) := []

/-- Dict lookup in the geocoder cache. -/
def cacheLookup (cache : List (String × GeocodingResult)) (key : String) :
    Option GeocodingResult :=
  (cache.find? (fun e => e.1 = key)).map (fun e => e.2)

/-- Outcome of one provider call inside `execute`'s `try` block: a result,
or the exception the call raised (`ValueError` versus any other). -/
inductive GeoOutcome
  | ok (g : GeocodingResult)
  | valueError (msg : String)
  | otherError (msg : String)

/-- Oracle standing for the three `_geocode_*` network calls. -/
structure GeoOracle where
  postcodesIoCall : String → GeoOutcome
  nominatimCall : String → GeoOutcome
  googleCall : String → GeoOutcome

/-- The effective provider string `provider or self.primary_provider`
(Python `or`: an explicit empty string also falls back). -/
def effProvider (st : GeocoderState) (provider : Option String) : String :=
  match provider with
  | none => st.primary_provider
  | some p => if p.isEmpty then st.primary_provider else p

/-- The cache key `f"{query.lower()}:{provider or self.primary_provider}"`
(`geocoder.py` line 253), on the stripped query. -/
def geoCacheKey (st : GeocoderState) (query : String)
    (provider : Option String) : String :=
  pyLower (pyStrip query) ++ ":" ++ effProvider st provider

/-- Shared tail of `execute`: wrap a provider-call outcome in a
`ToolResult`, caching the result only on success (`geocoder.py` lines
296-334). -/
def geoHandleOutcome (st : GeocoderState) (cacheKey : String)
    (warnings : List String) :
    GeoOutcome → ToolResult GeocodingResult × GeocoderState
  | .ok result =>
    ({ status := ToolStatus.success
       data := some result
       warnings := warnings ++
        (if result.match_quality ≠ "exact" then
          ["Match quality: " ++ result.match_quality]
        else []) },
     { st with cache := (cacheKey, result) :: st.cache })
  | .valueError msg =>
    ({ status := ToolStatus.failed
       errors := [createError "GEOCODER" "NOT_FOUND" msg true] }, st)
  | .otherError msg =>
    ({ status := ToolStatus.failed
       errors := [createError "GEOCODER" "GEOCODING_ERROR"
         ("Geocoding failed: " ++ msg) true] }, st)

/-- `Geocoder.execute` (`geocoder.py` lines 222-334) as a state transition,
with the network calls supplied by the oracle. -/
def geocoderExecute (st : GeocoderState) (oracle : GeoOracle)
    (query0 : String) (provider : Option String) :
    ToolResult GeocodingResult × GeocoderState :=
  let query := pyStrip query0
  if query.isEmpty then
    ({ status := ToolStatus.failed
       errors := [createError "GEOCODER" "EMPTY_QUERY"
         "No address or postcode provided" false] }, st)
  else
    let cacheKey := geoCacheKey st query0 provider
    match cacheLookup st.cache cacheKey with
    | some cached => ({ status := ToolStatus.success, data := some cached }, st)
    | none =>
      let prov := effProvider st provider
      if isUkPostcode query then
        geoHandleOutcome st cacheKey
          (if prov ≠ "postcodes_io" then
            ["Using postcodes.io for UK postcode (requested: " ++ prov ++ ")"]
          else [])
          (oracle.postcodesIoCall query)
      else if prov = "postcodes_io" then
        ({ status := ToolStatus.failed
           errors := [createError "GEOCODER" "INVALID_INPUT"
             "postcodes.io requires a valid UK postcode" true]
           warnings := ["Try using 'nominatim' or 'google' provider for addresses"] },
         st)
      else if prov = "google" then
        if !optStrTruthy st.google_api_key then
          geoHandleOutcome st cacheKey
            ["Google API key not configured, falling back to Nominatim"]
            (oracle.nominatimCall query)
        else
          geoHandleOutcome st cacheKey [] (oracle.googleCall query)
      else
        geoHandleOutcome st cacheKey [] (oracle.nominatimCall query)

/-- Cache lookup after inserting a binding at its key. -/
theorem cacheLookup_insert_self (c : List (String × GeocodingResult))
    (k : String) (v : GeocodingResult) :
    cacheLookup ((k, v) :: c) k = some v := by
  simp [cacheLookup]

/-- `geoHandleOutcome` caches exactly the successful outcomes: on FAILED the
state is unchanged, on SUCCESS the returned data is cached under the key. -/
theorem geoHandleOutcome_spec (st : GeocoderState) (key : String)
    (w : List String) (o : GeoOutcome) :
    ((geoHandleOutcome st key w o).1.status = ToolStatus.failed →
      (geoHandleOutcome st key w o).2 = st)
    ∧ ((geoHandleOutcome st key w o).1.status = ToolStatus.success →
      ∃ v, cacheLookup (geoHandleOutcome st key w o).2.cache key = some v
        ∧ (geoHandleOutcome st key w o).1.data = some v) := by
  cases o with
  | ok g =>
    constructor
    · intro h
      cases h
    · intro _
      refine ⟨g, ?_, rfl⟩
      exact cacheLookup_insert_self st.cache key g
  | valueError m => exact ⟨fun _ => rfl, fun h => by cases h⟩
  | otherError m => exact ⟨fun _ => rfl, fun h => by cases h⟩

/-- C10: the geocoder cache only ever receives results of successful calls
(a FAILED `execute` leaves the state untouched, so a failing query is
re-attempted), every successful call leaves its returned result cached
under the call's key, and once a key is cached, a later call with the same
(stripped-lowercased query, requested provider) pair returns the cached
result with status SUCCESS for every network oracle — no provider is
contacted and the state does not change. -/
theorem c10_geocoder_cache_invariant (st : GeocoderState) (oracle : GeoOracle)
    (q : String) (p : Option String) :
    ((geocoderExecute st oracle q p).1.status = ToolStatus.failed →
      (geocoderExecute st oracle q p).2 = st)
    ∧ ((geocoderExecute st oracle q p).1.status = ToolStatus.success →
      ∃ v, cacheLookup (geocoderExecute st oracle q p).2.cache
          (geoCacheKey st q p) = some v
        ∧ (geocoderExecute st oracle q p).1.data = some v)
    ∧ (∀ v, cacheLookup st.cache (geoCacheKey st q p) = some v →
        (pyStrip q).isEmpty = false →
        ∀ oracle2 : GeoOracle, geocoderExecute st oracle2 q p =
          ({ status := ToolStatus.success, data := some v }, st)) := by
  refine ⟨?_, ?_, ?_⟩
  · unfold geocoderExecute
    dsimp only
    cases hq : (pyStrip q).isEmpty with
    | true =>
      rw [if_pos rfl]
      exact fun _ => rfl
    | false =>
      rw [if_neg (by simp)]
      cases hcache : cacheLookup st.cache (geoCacheKey st q p) with
      | some v =>
        dsimp only
        exact fun h => by cases h
      | none =>
        dsimp only
        by_cases hpc : isUkPostcode (pyStrip q) = true
        · rw [if_pos hpc]
          exact (geoHandleOutcome_spec st _ _ _).1
        · rw [if_neg hpc]
          by_cases h1 : effProvider st p = "postcodes_io"
          · rw [if_pos h1]
            exact fun _ => rfl
          · rw [if_neg h1]
            by_cases h2 : effProvider st p = "google"
            · rw [if_pos h2]
              cases hk : (!optStrTruthy st.google_api_key) with
              | true =>
                rw [if_pos rfl]
                exact (geoHandleOutcome_spec st _ _ _).1
              | false =>
                rw [if_neg (by simp)]
                exact (geoHandleOutcome_spec st _ _ _).1
            · rw [if_neg h2]
              exact (geoHandleOutcome_spec st _ _ _).1
  · unfold geocoderExecute
    dsimp only
    cases hq : (pyStrip q).isEmpty with
    | true =>
      rw [if_pos rfl]
      exact fun h => by cases h
    | false =>
      rw [if_neg (by simp)]
      cases hcache : cacheLookup st.cache (geoCacheKey st q p) with
      | some v =>
        dsimp only
        exact fun _ => ⟨v, hcache, rfl⟩
      | none =>
        dsimp only
        by_cases hpc : isUkPostcode (pyStrip q) = true
        · rw [if_pos hpc]
          exact (geoHandleOutcome_spec st _ _ _).2
        · rw [if_neg hpc]
          by_cases h1 : effProvider st p = "postcodes_io"
          · rw [if_pos h1]
            exact fun h => by cases h
          · rw [if_neg h1]
            by_cases h2 : effProvider st p = "google"
            · rw [if_pos h2]
              cases hk : (!optStrTruthy st.google_api_key) with
              | true =>
                rw [if_pos rfl]
                exact (geoHandleOutcome_spec st _ _ _).2
              | false =>
                rw [if_neg (by simp)]
                exact (geoHandleOutcome_spec st _ _ _).2
            · rw [if_neg h2]
              exact (geoHandleOutcome_spec st _ _ _).2
  · intro v hv hq2 oracle2
    unfold geocoderExecute
    dsimp only
    rw [if_neg (by simp [hq2])]
    rw [hv]

/-- A network oracle on which every provider call raises. -/
def offlineGeoOracle : GeoOracle :=
  { postcodesIoCall := fun _ => GeoOutcome.otherError "offline"
    nominatimCall := fun _ => GeoOutcome.otherError "offline"
    googleCall := fun _ => GeoOutcome.otherError "offline" }

/-- Witness for C10: with a cached entry for the key, a repeat call
succeeds from the cache even though every network call would fail, and the
state is unchanged. -/
theorem c10_witness :
    geocoderExecute
        { cache := [("sw1a 1aa:postcodes_io",
            geocodePostcodesIo "SW1A 1AA" {})] }
        offlineGeoOracle "SW1A 1AA" none =
      ({ status := ToolStatus.success
         data := some (geocodePostcodesIo "SW1A 1AA" {}) },
       { cache := [("sw1a 1aa:postcodes_io",
           geocodePostcodesIo "SW1A 1AA" {})] }) :=
  (c10_geocoder_cache_invariant
      { cache := [("sw1a 1aa:postcodes_io", geocodePostcodesIo "SW1A 1AA" {})] }
      offlineGeoOracle "SW1A 1AA" none).2.2
    (geocodePostcodesIo "SW1A 1AA" {}) (by decide) (by decide) offlineGeoOracle

/-- `Reference/QSPlus_Export_Module.py` `BOQItem` after construction. -/
structure BOQItem where
  item_number : String
  description : String
  unitName : String
  quantity : ℚ
  rate : ℚ
  amount : ℚ
  sectionName : String := ""
  subsection : String := ""
  calculation_notes : String := ""
  reference_drawing : String := ""
  measurement_rule : String := ""

/-- Arguments of `BOQItem.__init__`; `amount = none` models the argument
being omitted (Python default `0.0`), `some v` an explicitly passed value.
(`unit` and `section` are renamed: both are Lean keywords/builtins.) -/
structure BOQItemArgs where
  item_number : String := ""
  description : String := ""
  unitName : String := ""
  quantity : ℚ := 0
  rate : ℚ := 0
  amount : Option ℚ := none
  sectionName : String := ""
  subsection : String := ""
  calculation_notes : String := ""
  reference_drawing : String := ""
  measurement_rule : String := ""

/-- `BOQItem.__init__` (`QSPlus_Export_Module.py` lines 30-54):
`self.amount = amount if amount > 0 else (quantity * rate)`. -/
def mkBOQItem (a : BOQItemArgs) : BOQItem :=
  let amount := a.amount.getD 0
  { item_number := a.item_number
    description := a.description
    unitName := a.unitName
    quantity := a.quantity
    rate := a.rate
    amount := if 0 < amount then amount else a.quantity * a.rate
    sectionName := a.sectionName
    subsection := a.subsection
    calculation_notes := a.calculation_notes
    reference_drawing := a.reference_drawing
    measurement_rule := a.measurement_rule }

/-- Python `round(x, 2)` on the exact value: round half to even at two
decimal places. -/
def roundHalfEven2 (q : ℚ) : ℚ :=
  let s := q * 100
  let f : ℤ := ⌊s⌋
  let r : ℚ := s - (f : ℚ)
  let n : ℤ :=
    if r < 1/2 then f
    else if r > 1/2 then f + 1
    else if f % 2 = 0 then f else f + 1
  (n : ℚ) / 100

/-- The `summary` object of the JSON export. -/
structure ExportSummary where
  total_items : ℕ
  total_amount : ℚ

/-- The JSON document written by `QSPlusExporter.export_to_json`
(`QSPlus_Export_Module.py` lines 372-417); file writing and the
`created_date` header are omitted, items are carried as the records their
`to_dict` rows serialise. -/
structure QSPlusJsonDoc where
  project_name : String
  project_number : String
  items : List BOQItem
  include_calculations : Bool
  summary : ExportSummary

/-- `QSPlusExporter.export_to_json` document construction. -/
def exportToJson (project_name project_number : String)
    (items : List BOQItem) (include_calculations : Bool) : QSPlusJsonDoc :=
  { project_name := project_name
    project_number := project_number
    items := items
    include_calculations := include_calculations
    summary :=
      { total_items := items.length
        total_amount := roundHalfEven2 ((items.map (fun i => i.amount)).sum) } }

/-- C9 counterexample: an explicitly given non-positive amount is replaced
by quantity × rate (`amount if amount > 0 else quantity * rate`), so the
exported total is not the sum of the explicitly given amounts. -/
theorem c9_counterexample_explicit_nonpositive_amount :
    (mkBOQItem { quantity := 2, rate := 3, amount := some (-1) }).amount = 6
    ∧ (exportToJson "P" "001"
        [mkBOQItem { quantity := 2, rate := 3, amount := some (-1) }]
        true).summary.total_amount = 6
    ∧ ((6 : ℚ) ≠ -1) := by
  refine ⟨?_, ?_, by norm_num⟩
  · norm_num [mkBOQItem]
  · norm_num [mkBOQItem, exportToJson, roundHalfEven2]

/-- C9 (amended): the JSON export's `summary.total_amount` is the sum of
the items' stored `amount` fields rounded to 2 decimals, where an item's
stored amount is the explicitly given amount when that is positive and
quantity × rate otherwise (in particular whenever no amount was given). -/
theorem c9_export_total_amount (project_name project_number : String)
    (args : List BOQItemArgs) (inc : Bool) :
    (exportToJson project_name project_number (args.map mkBOQItem)
        inc).summary.total_amount =
      roundHalfEven2 (((args.map mkBOQItem).map (fun i => i.amount)).sum)
    ∧ (∀ a : BOQItemArgs, (mkBOQItem a).amount =
        (if 0 < a.amount.getD 0 then a.amount.getD 0 else a.quantity * a.rate))
    ∧ (∀ a : BOQItemArgs, a.amount = none →
        (mkBOQItem a).amount = a.quantity * a.rate)
    ∧ (∀ (a : BOQItemArgs) (v : ℚ), a.amount = some v → 0 < v →
        (mkBOQItem a).amount = v) := by
  refine ⟨rfl, fun a => rfl, ?_, ?_⟩
  · intro a ha
    show (if 0 < a.amount.getD 0 then a.amount.getD 0 else a.quantity * a.rate)
        = a.quantity * a.rate
    rw [ha]
    norm_num
  · intro a v ha hv
    show (if 0 < a.amount.getD 0 then a.amount.getD 0 else a.quantity * a.rate) = v
    rw [ha]
    simp only [Option.getD_some]
    rw [if_pos hv]

/-- Witness for C9: a positive explicit amount is kept as given. -/
theorem c9_witness :
    (mkBOQItem { quantity := 2, rate := 3, amount := some 5 }).amount = 5 :=
  (c9_export_total_amount "P" "001" [] true).2.2.2
    { quantity := 2, rate := 3, amount := some 5 } 5 rfl (by norm_num)

/-- The backquote character (written by code point to keep source plain). -/
def backquote : Char := Char.ofNat 96

/-- The `{` character. -/
def lbraceChar : Char := Char.ofNat 123

/-- The `}` character. -/
def rbraceChar : Char := Char.ofNat 125

/-- Index of the first occurrence of `pat` as a contiguous sublist. -/
def findSubstrIdx (pat : List Char) : List Char → Option ℕ
  | [] => if pat.isEmpty then some 0 else none
  | c :: rest =>
    if pat.isPrefixOf (c :: rest) then some 0
    else (findSubstrIdx pat rest).map (fun i => i + 1)

/-- The suffix after the first occurrence of `pat`. -/
def dropAfterFirst (pat l : List Char) : Option (List Char) :=
  (findSubstrIdx pat l).map (fun i => l.drop (i + pat.length))

/-- The prefix before the first occurrence of `pat`. -/
def takeBeforeFirst (pat l : List Char) : Option (List Char) :=
  (findSubstrIdx pat l).map (fun i => l.take i)

/-- The three-backquote fence followed by `json`. -/
def fencedOpen : List Char := [backquote, backquote, backquote, 'j', 's', 'o', 'n']

/-- The three-backquote fence. -/
def fence : List Char := [backquote, backquote, backquote]

/-- Group 1 of `re.search(r"```json\s*(.*?)\s*```", text, re.DOTALL)`:
everything between the first fenced-`json` opener that has a closing fence
and that first closing fence, with surrounding whitespace stripped (the
greedy `\s*`, lazy `(.*?)`, `\s*` combination reduces to a trim of the
segment before the first fence; a later opener implies a fence after the
first opener, so only the first opener needs checking). -/
def findFencedJson (l : List Char) : Option (List Char) :=
  match dropAfterFirst fencedOpen l with
  | none => none
  | some t => (takeBeforeFirst fence t).map pyStripL

/-- Index of the last occurrence of a character. -/
def findLastIdx (c : Char) (l : List Char) : Option ℕ :=
  (l.reverse.findIdx? (fun x => x = c)).map (fun i => l.length - 1 - i)

/-- Group 0 of `re.search(r"\{.*\}", text, re.DOTALL)`: from the first
`{` to the last `}` (greedy `.*` with DOTALL), when the first `{` precedes
the last `}`. -/
def findBraceSpan (l : List Char) : Option (List Char) :=
  match l.findIdx? (fun c => c = lbraceChar), findLastIdx rbraceChar l with
  | some i, some j =>
    if i < j then some ((l.take (j + 1)).drop i) else none
  | _, _ => none

/-- The JSON text `_parse_response` extracts: the fenced block when
present, else the first brace-delimited span. -/
def extractJsonBlock (l : List Char) : Option (List Char) :=
  match findFencedJson l with
  | some js => some js
  | none => findBraceSpan l

/-- JSON whitespace (`json.loads` skips space, tab, newline, return). -/
def jsonWs (c : Char) : Bool :=
  c = ' ' || c = '\t' || c = '\n' || c = '\r'

/-- Value of a hexadecimal digit. -/
def hexVal (c : Char) : ℕ :=
  if isDigitChar c then c.toNat - 48
  else if 'a' ≤ c && c ≤ 'f' then c.toNat - 87
  else if 'A' ≤ c && c ≤ 'F' then c.toNat - 55
  else 0

/-- Hexadecimal digit test. -/
def isHexChar (c : Char) : Bool :=
  isDigitChar c || ('a' ≤ c && c ≤ 'f') || ('A' ≤ c && c ≤ 'F')

/-- Body of a JSON string after the opening quote: characters consumed and
unescaped until the closing quote.  Returns the string and the rest. -/
def parseJsonStringAux : List Char → List Char →
    Except String (List Char × List Char)
  | _, [] => Except.error "Unterminated string"
  | acc, c :: rest =>
    if c = '"' then Except.ok (acc.reverse, rest)
    else if c = '\\' then
      match rest with
      | [] => Except.error "Unterminated string"
      | e :: rest2 =>
        if e = '"' then parseJsonStringAux ('"' :: acc) rest2
        else if e = '\\' then parseJsonStringAux ('\\' :: acc) rest2
        else if e = '/' then parseJsonStringAux ('/' :: acc) rest2
        else if e = 'b' then parseJsonStringAux (Char.ofNat 8 :: acc) rest2
        else if e = 'f' then parseJsonStringAux (Char.ofNat 12 :: acc) rest2
        else if e = 'n' then parseJsonStringAux ('\n' :: acc) rest2
        else if e = 'r' then parseJsonStringAux ('\r' :: acc) rest2
        else if e = 't' then parseJsonStringAux ('\t' :: acc) rest2
        else if e = 'u' then
          match rest2 with
          | h1 :: h2 :: h3 :: h4 :: rest3 =>
            if isHexChar h1 && isHexChar h2 && isHexChar h3 && isHexChar h4
            then
              parseJsonStringAux
                (Char.ofNat (hexVal h1 * 4096 + hexVal h2 * 256 +
                  hexVal h3 * 16 + hexVal h4) :: acc) rest3
            else Except.error "Invalid hex escape"
          | _ => Except.error "Invalid hex escape"
        else Except.error "Invalid escape"
    else if c.toNat < 32 then Except.error "Invalid control character"
    else parseJsonStringAux (c :: acc) rest

/-- JSON number grammar `-? int frac? exp?` with the leading-zero rule;
returns the value as an exact decimal pair (mantissa, negative power of
ten) and the rest of the input. -/
def parseJsonNumber (l : List Char) : Except String ((ℤ × ℕ) × List Char) :=
  let sgnRest : ℤ × List Char :=
    match l with
    | '-' :: cs => (-1, cs)
    | cs => (1, cs)
  let ds := sgnRest.2.takeWhile isDigitChar
  let rest1 := sgnRest.2.dropWhile isDigitChar
  if ds.isEmpty then Except.error "Expecting value"
  else if ds.length > 1 && ds.headD '0' = '0' then Except.error "Expecting value"
  else
    let fracRest : List Char × List Char :=
      match rest1 with
      | '.' :: cs => (cs.takeWhile isDigitChar, cs.dropWhile isDigitChar)
      | _ => ([], rest1)
    let fs := fracRest.1
    let rest2 := if rest1.headD ' ' = '.' then fracRest.2 else rest1
    if rest1.headD ' ' = '.' && fs.isEmpty then
      Except.error "Expecting value"
    else
      let expRes : Except String (ℤ × List Char) :=
        match rest2 with
        | c :: cs =>
          if c = 'e' || c = 'E' then
            let esgnRest : ℤ × List Char :=
              match cs with
              | '+' :: cs2 => (1, cs2)
              | '-' :: cs2 => (-1, cs2)
              | cs2 => (1, cs2)
            let es := esgnRest.2.takeWhile isDigitChar
            if es.isEmpty then Except.error "Expecting value"
            else Except.ok (esgnRest.1 * (digitsVal es : ℤ),
              esgnRest.2.dropWhile isDigitChar)
          else Except.ok (0, rest2)
        | [] => Except.ok (0, rest2)
      match expRes with
      | Except.error e => Except.error e
      | Except.ok (expVal, rest3) =>
        let base : ℤ := sgnRest.1 * (digitsVal (ds ++ fs) : ℤ)
        let shift : ℤ := expVal - (fs.length : ℤ)
        if 0 ≤ shift then
          Except.ok ((base * 10 ^ shift.toNat, 0), rest3)
        else
          Except.ok ((base, (-shift).toNat), rest3)

mutual

/-- One JSON value (after optional leading whitespace); fuel decreases on
every recursive call. -/
def parseJsonValue : ℕ → List Char → Except String (PyVal × List Char)
  | 0, _ => Except.error "Exceeded nesting"
  | fuel + 1, l =>
    let l1 := l.dropWhile jsonWs
    match l1 with
    | [] => Except.error "Expecting value"
    | c :: rest =>
      if c = lbraceChar then parseJsonMembers fuel rest [] true
      else if c = '[' then parseJsonItems fuel rest [] true
      else if c = '"' then
        match parseJsonStringAux [] rest with
        | Except.error e => Except.error e
        | Except.ok (s, rest2) => Except.ok (PyVal.str ⟨s⟩, rest2)
      else if ['t', 'r', 'u', 'e'].isPrefixOf l1 then
        Except.ok (PyVal.bool true, l1.drop 4)
      else if ['f', 'a', 'l', 's', 'e'].isPrefixOf l1 then
        Except.ok (PyVal.bool false, l1.drop 5)
      else if ['n', 'u', 'l', 'l'].isPrefixOf l1 then
        Except.ok (PyVal.none, l1.drop 4)
      else
        match parseJsonNumber l1 with
        | Except.error e => Except.error e
        | Except.ok ((m, e10), rest2) => Except.ok (PyVal.num m e10, rest2)

/-- Members of a JSON object after the opening brace; `first` marks that no
member has been consumed yet. -/
def parseJsonMembers : ℕ → List Char → List (String × PyVal) → Bool →
    Except String (PyVal × List Char)
  | 0, _, _, _ => Except.error "Exceeded nesting"
  | fuel + 1, l, acc, first => by
    exact
      let l1 := l.dropWhile jsonWs
      match l1 with
      | [] => Except.error "Expecting property name"
      | c :: rest =>
        if c = rbraceChar && first then Except.ok (PyVal.dict acc.reverse, rest)
        else
          if c = '"' then
            match parseJsonStringAux [] rest with
            | Except.error e => Except.error e
            | Except.ok (k, rest2) =>
              let rest3 := rest2.dropWhile jsonWs
              match rest3 with
              | ':' :: rest4 =>
                match parseJsonValue fuel rest4 with
                | Except.error e => Except.error e
                | Except.ok (v, rest5) =>
                  let rest6 := rest5.dropWhile jsonWs
                  match rest6 with
                  | ',' :: rest7 => parseJsonMembers fuel rest7 ((⟨k⟩, v) :: acc) false
                  | d :: rest7 =>
                    if d = rbraceChar then
                      Except.ok (PyVal.dict (((⟨k⟩ : String), v) :: acc).reverse, rest7)
                    else Except.error "Expecting delimiter"
                  | [] => Except.error "Expecting delimiter"
              | _ => Except.error "Expecting colon"
          else Except.error "Expecting property name"

/-- Items of a JSON array after the opening bracket. -/
def parseJsonItems : ℕ → List Char → List PyVal → Bool →
    Except String (PyVal × List Char)
  | 0, _, _, _ => Except.error "Exceeded nesting"
  | fuel + 1, l, acc, first => by
    exact
      let l1 := l.dropWhile jsonWs
      match l1 with
      | [] => Except.error "Expecting value"
      | c :: rest =>
        if c = ']' && first then Except.ok (PyVal.list acc.reverse, rest)
        else
          match parseJsonValue fuel l1 with
          | Except.error e => Except.error e
          | Except.ok (v, rest2) =>
            let rest3 := rest2.dropWhile jsonWs
            match rest3 with
            | ',' :: rest4 => parseJsonItems fuel rest4 (v :: acc) false
            | ']' :: rest4 => Except.ok (PyVal.list (v :: acc).reverse, rest4)
            | _ => Except.error "Expecting delimiter"

end

/-- `json.loads` on a character list: parse one value and require only
whitespace to remain (Python's non-standard `Infinity`/`NaN` acceptance is
outside this model). -/
def jsonLoads (l : List Char) : Except String PyVal :=
  match parseJsonValue (l.length + 1) l with
  | Except.error e => Except.error e
  | Except.ok (v, rest) =>
    if (rest.dropWhile jsonWs).isEmpty then Except.ok v
    else Except.error "Extra data"

/-- The Python exceptions `_parse_response` can raise past its single
`except json.JSONDecodeError` handler. -/
inductive PyErr
  | attributeError
  | valueError
  | typeError
deriving DecidableEq

/-- Python `float(x)` on a dynamically typed value: numbers and booleans
convert, numeric strings parse (else `ValueError`), anything else raises
`TypeError`. -/
def pyFloat : PyVal → Except PyErr ℚ
  | PyVal.num m e => Except.ok (decimalToRat m e)
  | PyVal.bool b => Except.ok (if b then 1 else 0)
  | PyVal.str s =>
    match pyFloatOfString s with
    | some q => Except.ok q
    | none => Except.error PyErr.valueError
  | _ => Except.error PyErr.typeError

/-- `tools/drawing_classifier/classifier.py` `ClassificationResult`.  The
fields copied verbatim from the model JSON are kept dynamically typed. -/
structure ClassificationResult where
  drawing_type : DrawingType
  drawing_number : PyVal := PyVal.none
  drawing_title : PyVal := PyVal.none
  revision : PyVal := PyVal.none
  scale : PyVal := PyVal.none
  dimensions_present : PyVal := PyVal.bool false
  annotations_present : PyVal := PyVal.bool false
  confidence : ℚ := 0
  measurement_potential : PyVal := PyVal.list []
  notes : PyVal := PyVal.list []
  raw_response : Option String := none

/-- The UNKNOWN fallback when no JSON block is found
(`classifier.py` lines 229-234). -/
def failedParseClassification (response_text : String) : ClassificationResult :=
  { drawing_type := DrawingType.unknown
    confidence := 0
    notes := PyVal.list [PyVal.str "Failed to parse model response"]
    raw_response := some response_text }

/-- The UNKNOWN fallback when the extracted text fails to parse as JSON
(`classifier.py` lines 260-266). -/
def jsonErrorClassification (e : String) (response_text : String) :
    ClassificationResult :=
  { drawing_type := DrawingType.unknown
    confidence := 0
    notes := PyVal.list [PyVal.str ("JSON parse error: " ++ e)]
    raw_response := some response_text }

/-- The field mapping of `_parse_response` once a JSON value has been
parsed (`classifier.py` lines 237-258): `.get` raises `AttributeError` on
a non-dict, `.lower()` raises it on a non-string drawing type, an unknown
label maps to UNKNOWN, and `float(...)` of the confidence propagates
`ValueError`/`TypeError` uncaught. -/
def classificationFromJson (data : PyVal) (response_text : String) :
    Except PyErr ClassificationResult :=
  match data with
  | PyVal.dict entries =>
    match pyDictGet entries "drawing_type" (PyVal.str "unknown") with
    | PyVal.str ts =>
      match pyFloat (pyDictGet entries "confidence" (PyVal.num 5 1)) with
      | Except.error e => Except.error e
      | Except.ok conf =>
        Except.ok
          { drawing_type := (drawingTypeOfValue (pyLower ts)).getD DrawingType.unknown
            drawing_number := pyDictGet entries "drawing_number" PyVal.none
            drawing_title := pyDictGet entries "drawing_title" PyVal.none
            revision := pyDictGet entries "revision" PyVal.none
            scale := pyDictGet entries "scale" PyVal.none
            dimensions_present :=
              pyDictGet entries "dimensions_present" (PyVal.bool false)
            annotations_present :=
              pyDictGet entries "annotations_present" (PyVal.bool false)
            confidence := conf
            measurement_potential :=
              pyDictGet entries "measurement_potential" (PyVal.list [])
            notes := pyDictGet entries "notes" (PyVal.list [])
            raw_response := some response_text }
    | _ => Except.error PyErr.attributeError
  | _ => Except.error PyErr.attributeError

/-- `DrawingClassifier._parse_response` (`classifier.py` lines 216-266). -/
def parseResponse (response_text : String) : Except PyErr ClassificationResult :=
  match extractJsonBlock response_text.data with
  | none => Except.ok (failedParseClassification response_text)
  | some js =>
    match jsonLoads js with
    | Except.error e => Except.ok (jsonErrorClassification e response_text)
    | Except.ok data => classificationFromJson data response_text

/-- The confidence value in the parsed JSON converts under `float()`. -/
def confidenceConvertible : PyVal → Bool
  | PyVal.num _ _ => true
  | PyVal.bool _ => true
  | PyVal.str s => (pyFloatOfString s).isSome
  | _ => false

/-- The well-typedness condition under which `_parse_response` cannot
raise: when a JSON object is successfully extracted and parsed, its
`drawing_type` entry (default `"unknown"`) is a string and its
`confidence` entry (default `0.5`) is `float()`-convertible. -/
def responseSafe (s : String) : Prop :=
  match extractJsonBlock s.data with
  | none => True
  | some js =>
    match jsonLoads js with
    | Except.error _ => True
    | Except.ok (PyVal.dict entries) =>
      (∃ ts, pyDictGet entries "drawing_type" (PyVal.str "unknown") = PyVal.str ts)
      ∧ confidenceConvertible (pyDictGet entries "confidence" (PyVal.num 5 1)) = true
    | Except.ok _ => False

/-- `true` exactly on an uncaught `ValueError`. -/
def raisesValueError : Except PyErr ClassificationResult → Bool
  | Except.error PyErr.valueError => true
  | _ => false

/-- C5 counterexample: a response whose JSON parses but carries a
non-numeric confidence string makes `_parse_response` raise an uncaught
`ValueError` from `float(...)`, so it does not return a
`ClassificationResult` for every model response. -/
theorem c5_counterexample_float_raises :
    raisesValueError (parseResponse
      "\x7b\"drawing_type\": \"floor_plan\", \"confidence\": \"high\"\x7d") = true := by
  decide

/-- C5 (amended): `_parse_response` extracts the fenced JSON block when
present, else the first brace span; with no JSON block, or with extracted
text that fails to parse, it returns drawing type UNKNOWN with confidence
0.0 and a diagnostic note; an out-of-vocabulary drawing-type string maps
to UNKNOWN; and it returns a `ClassificationResult` without raising
provided the parsed JSON object is well typed where the code converts
(string `drawing_type`, `float()`-convertible `confidence`) — outside that
condition `float(...)`/`.lower()` exceptions propagate, as the
counterexample shows. -/
theorem c5_parse_response_behaviour (s : String) (hsafe : responseSafe s) :
    (∃ r, parseResponse s = Except.ok r)
    ∧ (extractJsonBlock s.data =
        (match findFencedJson s.data with
         | some js => some js
         | none => findBraceSpan s.data))
    ∧ (extractJsonBlock s.data = none →
        parseResponse s = Except.ok (failedParseClassification s))
    ∧ (∀ js e, extractJsonBlock s.data = some js → jsonLoads js = Except.error e →
        parseResponse s = Except.ok (jsonErrorClassification e s))
    ∧ (∀ js entries ts, extractJsonBlock s.data = some js →
        jsonLoads js = Except.ok (PyVal.dict entries) →
        pyDictGet entries "drawing_type" (PyVal.str "unknown") = PyVal.str ts →
        drawingTypeOfValue (pyLower ts) = none →
        ∀ r, parseResponse s = Except.ok r →
          r.drawing_type = DrawingType.unknown) := by
  refine ⟨?_, rfl, ?_, ?_, ?_⟩
  · unfold responseSafe at hsafe
    cases hext : extractJsonBlock s.data with
    | none =>
      simp only [parseResponse, hext]
      exact ⟨_, rfl⟩
    | some js =>
      rw [hext] at hsafe
      dsimp only at hsafe
      cases hload : jsonLoads js with
      | error e =>
        simp only [parseResponse, hext, hload]
        exact ⟨_, rfl⟩
      | ok v =>
        rw [hload] at hsafe
        cases v with
        | dict entries =>
          dsimp only at hsafe
          obtain ⟨⟨ts, hts⟩, hconv⟩ := hsafe
          have hfl : ∃ q,
              pyFloat (pyDictGet entries "confidence" (PyVal.num 5 1)) =
                Except.ok q := by
            cases hv : pyDictGet entries "confidence" (PyVal.num 5 1) with
            | num m e => exact ⟨_, rfl⟩
            | bool b => exact ⟨_, rfl⟩
            | str st =>
              rw [hv] at hconv
              dsimp only [confidenceConvertible] at hconv
              cases hfs : pyFloatOfString st with
              | none => rw [hfs] at hconv; cases hconv
              | some q => exact ⟨q, by simp only [pyFloat, hfs]⟩
            | none => rw [hv] at hconv; cases hconv
            | list xs => rw [hv] at hconv; cases hconv
            | dict es => rw [hv] at hconv; cases hconv
          obtain ⟨q, hq⟩ := hfl
          simp only [parseResponse, hext, hload, classificationFromJson, hts, hq]
          exact ⟨_, rfl⟩
        | none => exact hsafe.elim
        | bool b => exact hsafe.elim
        | num m e => exact hsafe.elim
        | str st => exact hsafe.elim
        | list xs => exact hsafe.elim
  · intro hext
    simp only [parseResponse, hext]
  · intro js e hext hload
    simp only [parseResponse, hext, hload]
  · intro js entries ts hext hload hts hdt r hr
    simp only [parseResponse, hext, hload, classificationFromJson, hts] at hr
    cases hconf : pyFloat (pyDictGet entries "confidence" (PyVal.num 5 1)) with
    | error e =>
      simp only [hconf] at hr
      cases hr
    | ok conf =>
      simp only [hconf] at hr
      injection hr with h
      subst h
      show (drawingTypeOfValue (pyLower ts)).getD DrawingType.unknown = _
      rw [hdt]
      rfl

/-- Witness for C5: a response with no JSON block is safe and yields the
UNKNOWN/0.0 fallback with its diagnostic note. -/
theorem c5_witness :
    parseResponse "I could not classify this drawing." =
      Except.ok (failedParseClassification "I could not classify this drawing.") :=
  (c5_parse_response_behaviour "I could not classify this drawing."
    trivial).2.2.1 (by decide)

/-- The confidence of a returned classification, `none` on a raise. -/
def classifConfOf : Except PyErr ClassificationResult → Option ℚ
  | Except.ok r => some r.confidence
  | Except.error _ => none

/-- C8 counterexample: a model response reporting confidence 1.5 is stored
unchanged — the classifier applies no clamping, so classification
confidences are not always within [0, 1]. -/
theorem c8_counterexample_confidence_not_clamped :
    classifConfOf (parseResponse
        "\x7b\"drawing_type\": \"floor_plan\", \"confidence\": 1.5\x7d") =
      some (decimalToRat 15 1)
    ∧ ¬(decimalToRat 15 1 ≤ 1) := by
  constructor
  · rfl
  · norm_num [decimalToRat]

/-- C8 (amended): the metadata extractor's weighted confidence always lies
in [0,1]; the classifier's fallback results carry confidence 0.0, but on
the JSON path the stored confidence is exactly `float()` of the reported
value (default 0.5) with no clamping, so it lies outside [0,1] exactly
when the reported value does. -/
theorem c8_confidence_ranges (metadata : ProjectMetadata) (s : String) :
    (0 ≤ calculateConfidence metadata ∧ calculateConfidence metadata ≤ 1)
    ∧ (extractJsonBlock s.data = none →
        ∀ r, parseResponse s = Except.ok r → r.confidence = 0)
    ∧ (∀ js e, extractJsonBlock s.data = some js →
        jsonLoads js = Except.error e →
        ∀ r, parseResponse s = Except.ok r → r.confidence = 0)
    ∧ (∀ js entries, extractJsonBlock s.data = some js →
        jsonLoads js = Except.ok (PyVal.dict entries) →
        ∀ r, parseResponse s = Except.ok r →
          pyFloat (pyDictGet entries "confidence" (PyVal.num 5 1)) =
            Except.ok r.confidence) := by
  refine ⟨calculateConfidence_mem_unit metadata, ?_, ?_, ?_⟩
  · intro hext r hr
    simp only [parseResponse, hext] at hr
    injection hr with h
    subst h
    rfl
  · intro js e hext hload r hr
    simp only [parseResponse, hext, hload] at hr
    injection hr with h
    subst h
    rfl
  · intro js entries hext hload r hr
    simp only [parseResponse, hext, hload, classificationFromJson] at hr
    cases hts : pyDictGet entries "drawing_type" (PyVal.str "unknown") with
    | str ts =>
      simp only [hts] at hr
      cases hconf : pyFloat (pyDictGet entries "confidence" (PyVal.num 5 1)) with
      | error e =>
        simp only [hconf] at hr
        cases hr
      | ok conf =>
        simp only [hconf] at hr
        injection hr with h
        subst h
        rfl
    | none => simp only [hts] at hr; cases hr
    | bool b => simp only [hts] at hr; cases hr
    | num m e => simp only [hts] at hr; cases hr
    | list xs => simp only [hts] at hr; cases hr
    | dict es => simp only [hts] at hr; cases hr

/-- Witness for C8: the no-JSON fallback result indeed carries
confidence 0. -/
theorem c8_witness :
    (failedParseClassification "not json").confidence = 0 :=
  (c8_confidence_ranges {} "not json").2.1 (by decide)
    (failedParseClassification "not json") rfl

/-- `tools/common/schemas.py` `DocumentStatus`. -/
inductive DocumentStatus
  | present
  | missing
  | incomplete
  | superseded
deriving DecidableEq

/-- `tools/common/schemas.py` `DocumentEntry` (received date omitted). -/
structure DocumentEntry where
  file_name : String
  file_path : String
  file_type : String
  file_size_bytes : ℕ
  page_count : ℕ
  drawings : List DrawingInfo := []
  status : DocumentStatus := DocumentStatus.present
  hash_md5 : Option String := none

/-- `PDFParserResult.to_document_entry` (`parser.py` lines 69-79). -/
def toDocumentEntry (pdf : PDFParserResult) : DocumentEntry :=
  { file_name := pdf.file_name
    file_path := pdf.file_path
    file_type := "application/pdf"
    file_size_bytes := pdf.file_size_bytes
    page_count := pdf.page_count
    status := DocumentStatus.present
    hash_md5 := some pdf.hash_md5 }

/-- `tools/common/schemas.py` `DocumentManifest` (creation date omitted). -/
structure DocumentManifest where
  project_id : String
  source_directory : Option String := none
  documents : List DocumentEntry := []
  metadata : Option ProjectMetadata := none
  total_pages : ℕ := 0
  total_drawings : ℕ := 0

/-- `tools/common/schemas.py` `MeasurableElement`. -/
structure MeasurableElement where
  element_type : String
  nrm_reference : Option String := none
  source_drawings : List String := []
  confidence : String := "medium"
  notes : List String := []

/-- `tools/common/schemas.py` `MeasurementScope` (assessment date omitted;
the `{"element", "reason"}` dicts are carried as pairs). -/
structure MeasurementScope where
  project_id : String
  measurable_elements : List MeasurableElement := []
  unmeasurable_elements : List (String × String) := []
  coverage_summary : String := ""
  recommended_assumptions : List String := []
  exclusions : List String := []

/-- `agents/intake_analyst.py` `IntakeResult` (timing omitted; the error
dicts are carried as `ToolError`). -/
structure IntakeResult where
  project_id : String
  manifest : DocumentManifest
  completeness : CompletenessReport
  measurement_scope : MeasurementScope
  errors : List ToolError := []
  warnings : List String := []

/-- The eight pipeline steps of `IntakeAnalyst.analyze`; the returned trace
records which were performed. -/
inductive IntakeStep
  | parsePdfs
  | extractMetadata
  | geocode
  | classify
  | buildManifest
  | assessPackage
  | determineScopeStep
  | saveOutputs
deriving DecidableEq

/-- `IntakeAnalyst.MEASUREMENT_POTENTIAL` with the `.get(type, [])`
lookup applied (every listed type has a non-empty list, so membership in
the dict coincides with a non-empty lookup). -/
def measurementPotential : DrawingType → List String
  | DrawingType.floorPlan =>
    ["Gross Internal Floor Area (GIFA)", "Net Internal Area (NIA)",
     "Room areas", "Wall lengths (internal)", "Door positions and counts",
     "Window positions", "Partition lengths"]
  | DrawingType.sitePlan =>
    ["Site area", "Building footprint", "Hard landscaping areas",
     "Soft landscaping areas", "Boundary lengths", "Parking spaces",
     "Access road lengths"]
  | DrawingType.elevation =>
    ["External wall areas", "Window areas and counts", "Door areas and counts",
     "Cladding areas", "Building height"]
  | DrawingType.sectionDrawing =>
    ["Floor-to-floor heights", "Floor construction depths",
     "Roof construction depth", "Foundation depths", "Stair flights"]
  | DrawingType.roofPlan =>
    ["Roof area", "Roof perimeter", "Rainwater goods", "Rooflights"]
  | DrawingType.reflectedCeiling =>
    ["Ceiling areas", "Ceiling grid", "Light fittings count", "Access panels"]
  | DrawingType.schedule =>
    ["Door schedule quantities", "Window schedule quantities",
     "Finish schedule", "Room data"]
  | DrawingType.structural =>
    ["Foundation types/sizes", "Beam sizes", "Column positions",
     "Slab thicknesses"]
  | DrawingType.detail =>
    ["Construction build-ups", "Material specifications"]
  | _ => []

/-- `IntakeAnalyst._get_nrm_reference`. -/
def nrmReference (element : String) : Option String :=
  if element = "Gross Internal Floor Area (GIFA)" then some "NRM1 2.6"
  else if element = "Net Internal Area (NIA)" then some "NRM1 2.7"
  else if element = "External wall areas" then some "NRM1 2.5.1"
  else if element = "Roof area" then some "NRM1 2.5.2"
  else if element = "Site area" then some "NRM1 2.1"
  else if element = "Window areas and counts" then some "NRM2 L10/L20"
  else if element = "Door areas and counts" then some "NRM2 L20"
  else if element = "Ceiling areas" then some "NRM2 K10/K40"
  else if element = "Floor construction depths" then some "NRM1 2.4.3"
  else none

/-- Python `str(value)` for the dynamically typed values reaching the
scope report's f-string (a stand-in for CPython `str()`: exact on strings,
booleans and `None`; decimal tagging approximates the float repr). -/
def pyValStr : PyVal → String
  | PyVal.str s => s
  | PyVal.bool b => if b then "True" else "False"
  | PyVal.none => "None"
  | PyVal.num m e =>
    if e = 0 then toString m else toString m ++ "e-" ++ toString e
  | PyVal.list _ => "[...]"
  | PyVal.dict _ => "\x7b...\x7d"

/-- `f"{d.drawing_number or 'Page ' + str(d.page_number)}"` in
`_determine_scope`. -/
def sourceDrawingName (d : DrawingInfo) : String :=
  if pyTruthy d.drawing_number then pyValStr d.drawing_number
  else "Page " ++ toString d.page_number

/-- `IntakeAnalyst._determine_scope` (`intake_analyst.py` lines 510-609).
Python set/dict iteration orders are modelled by first-occurrence and
definition order. -/
def determineScope (projectId : String) (drawings : List DrawingInfo) :
    MeasurementScope :=
  let typesPresent := (drawings.map (fun d => d.drawing_type)).dedup
  let elements := (typesPresent.filter (fun t =>
      t ≠ DrawingType.unknown && !(measurementPotential t).isEmpty)).flatMap
    (fun t =>
      let tds := drawings.filter (fun d => d.drawing_type = t)
      let avg : ℚ := (tds.map (fun d => d.confidence)).sum / (tds.length : ℚ)
      let hasDim := tds.any (fun d => pyTruthy d.dimensions_present)
      let conf :=
        if (0.8 : ℚ) ≤ avg ∧ hasDim then "high"
        else if (0.5 : ℚ) ≤ avg ∨ hasDim then "medium"
        else "low"
      let sources := tds.map sourceDrawingName
      let notes :=
        (if !hasDim then
          ["No dimension annotations detected - may need to scale from drawing"]
        else [])
        ++ (if avg < (0.7 : ℚ) then
          ["Drawing classification confidence is moderate"]
        else [])
      (measurementPotential t).map (fun el =>
        { element_type := el
          nrm_reference := nrmReference el
          source_drawings := sources
          confidence := conf
          notes := notes }))
  let allPotentialOrder : List DrawingType :=
    [DrawingType.floorPlan, DrawingType.sitePlan, DrawingType.elevation,
     DrawingType.sectionDrawing, DrawingType.roofPlan,
     DrawingType.reflectedCeiling, DrawingType.schedule,
     DrawingType.structural, DrawingType.detail]
  let allPotential := (allPotentialOrder.flatMap measurementPotential).dedup
  let measurable := elements.map (fun m => m.element_type)
  let unmeasurable := allPotential.filter (fun el => el ∉ measurable)
  let unmeasurableEntries := unmeasurable.map (fun el =>
    let requiredType := allPotentialOrder.find?
      (fun dt => el ∈ measurementPotential dt)
    (el, "No " ++
      (match requiredType with
       | some dt => drawingTypeSpaced dt
       | none => "suitable") ++ " drawing available"))
  let highCount := (elements.filter (fun m => m.confidence = "high")).length
  let medCount := (elements.filter (fun m => m.confidence = "medium")).length
  let lowCount := (elements.filter (fun m => m.confidence = "low")).length
  { project_id := projectId
    measurable_elements := elements
    unmeasurable_elements := unmeasurableEntries
    coverage_summary :=
      "From " ++ toString drawings.length ++ " drawings, " ++
      toString elements.length ++ " element types can be measured: " ++
      toString highCount ++ " high confidence, " ++
      toString medCount ++ " medium confidence, " ++
      toString lowCount ++ " low confidence. " ++
      toString unmeasurableEntries.length ++
      " element types cannot be measured from available information."
    recommended_assumptions :=
      (if DrawingType.sectionDrawing ∉ typesPresent then
        ["Floor-to-floor height: Assume 3.0m for commercial, 2.7m for residential unless stated"]
      else [])
      ++ (if DrawingType.structural ∉ typesPresent then
        ["Foundation type: Assume strip foundations for loadbearing masonry, pad foundations for framed buildings"]
      else []) }

/-- `IntakeAnalyst._create_empty_completeness` (`intake_analyst.py` lines
656-662). -/
def createEmptyCompleteness (projectId : String) : CompletenessReport :=
  { project_id := projectId
    status := "critical_gaps"
    proceed_recommendation := "hold"
    hold_reasons := ["No documents processed"] }

/-- `IntakeAnalyst._create_empty_scope` (`intake_analyst.py` lines
664-668). -/
def createEmptyScope (projectId : String) : MeasurementScope :=
  { project_id := projectId
    coverage_summary := "No drawings available for measurement" }

/-- `ClassificationResult.to_drawing_info` (`classifier.py` lines 105-120). -/
def toDrawingInfo (c : ClassificationResult) (file_path : String)
    (page_number : ℕ) : DrawingInfo :=
  { file_path := file_path
    page_number := page_number
    drawing_type := c.drawing_type
    drawing_number := c.drawing_number
    drawing_title := c.drawing_title
    revision := c.revision
    scale := c.scale
    dimensions_present := c.dimensions_present
    annotations_present := c.annotations_present
    confidence := c.confidence
    measurement_potential := c.measurement_potential
    notes := c.notes }

/-- Oracle for the tool calls `IntakeAnalyst.analyze` awaits: whether the
input path is a file, and the results each tool produces when asked
(`pdf_parser.execute` / `parse_directory`, `extract_from_pages`,
`enrich_location`, `classify_batch`). -/
structure AnalyzeEnv where
  inputIsFile : Bool
  fileResult : ToolResult PDFParserResult
  batchResult : ToolResult (List PDFParserResult)
  metadataResult : ToolResult ExtractionResult
  geocodeResult : ToolResult LocationInfo
  classifyResult : PDFParserResult → ToolResult (List ClassificationResult)

/-- The `pdf_results` list after step 1 of `analyze`
(`intake_analyst.py` lines 264-275). -/
def pdfResultsOf (env : AnalyzeEnv) : List PDFParserResult :=
  if env.inputIsFile then
    if env.fileResult.success && env.fileResult.data.isSome then
      match env.fileResult.data with
      | some d => [d]
      | none => []
    else []
  else
    if env.batchResult.success && env.batchResult.data.isSome then
      env.batchResult.data.getD []
    else []

/-- The parse errors collected in step 1. -/
def parseErrorsOf (env : AnalyzeEnv) : List ToolError :=
  if env.inputIsFile then env.fileResult.errors else env.batchResult.errors

/-- The parse warnings collected in step 1. -/
def parseWarningsOf (env : AnalyzeEnv) : List String :=
  if env.inputIsFile then env.fileResult.warnings else env.batchResult.warnings

/-- The drawings step 4 builds for one parsed document
(`intake_analyst.py` lines 323-361): classify the extracted page images,
convert each classification, attach the image path and the measurement
potential of known drawing types. -/
def docDrawingsFor (env : AnalyzeEnv) (pdf : PDFParserResult) :
    List DrawingInfo :=
  let imagePaths := pdf.pages.filterMap (fun p => p.extracted_image_path)
  if imagePaths.isEmpty then []
  else
    let cr := env.classifyResult pdf
    if cr.success && cr.data.isSome then
      ((cr.data.getD []).enum).map (fun ic =>
        let di := toDrawingInfo ic.2 pdf.file_path (ic.1 + 1)
        { di with
            image_path := imagePaths[ic.1]?
            measurement_potential :=
              if !(measurementPotential di.drawing_type).isEmpty then
                PyVal.list ((measurementPotential di.drawing_type).map PyVal.str)
              else di.measurement_potential })
    else []

/-- The warnings step 4 adds for one parsed document. -/
def classifyWarningsFor (env : AnalyzeEnv) (pdf : PDFParserResult) :
    List String :=
  let imagePaths := pdf.pages.filterMap (fun p => p.extracted_image_path)
  if imagePaths.isEmpty then ["No images extracted from " ++ pdf.file_name]
  else (env.classifyResult pdf).warnings

/-- `IntakeAnalyst.analyze` (`intake_analyst.py` lines 234-393) as a pure
function of the tool-call oracle, returning the result together with the
trace of pipeline steps performed (step 8, saving the three output files,
appears in the trace only). -/
def analyze (env : AnalyzeEnv) (inputPath projectId projectType : String) :
    IntakeResult × List IntakeStep :=
  let errors := parseErrorsOf env
  let warnings := parseWarningsOf env
  let pdfResults := pdfResultsOf env
  if pdfResults.isEmpty then
    ({ project_id := projectId
       manifest := { project_id := projectId, source_directory := some inputPath }
       completeness := createEmptyCompleteness projectId
       measurement_scope := createEmptyScope projectId
       errors := errors
       warnings := warnings ++ ["No PDF documents processed"] },
     [IntakeStep.parsePdfs])
  else
    let mdRes := env.metadataResult
    let projectMetadata :=
      if mdRes.success && mdRes.data.isSome then
        (mdRes.data.map (fun d => d.metadata)).getD {}
      else {}
    let warnings2 := warnings ++ mdRes.warnings
    let doGeocode :=
      match projectMetadata.location with
      | some loc => optStrTruthy loc.postcode
      | none => false
    let projectMetadata2 :=
      if doGeocode && env.geocodeResult.success && env.geocodeResult.data.isSome
      then { projectMetadata with location := env.geocodeResult.data }
      else projectMetadata
    let warnings3 :=
      warnings2 ++ (if doGeocode then env.geocodeResult.warnings else [])
    let documentEntries := pdfResults.map (fun pdf =>
      { toDocumentEntry pdf with drawings := docDrawingsFor env pdf })
    let allDrawings := pdfResults.flatMap (docDrawingsFor env)
    let warnings4 := warnings3 ++ pdfResults.flatMap (classifyWarningsFor env)
    let manifest : DocumentManifest :=
      { project_id := projectId
        source_directory := some inputPath
        documents := documentEntries
        metadata := some projectMetadata2
        total_pages := (documentEntries.map (fun d => d.page_count)).sum
        total_drawings := allDrawings.length }
    let completeness :=
      assessCompleteness projectId projectType allDrawings projectMetadata2
    let scope := determineScope projectId allDrawings
    ({ project_id := projectId
       manifest := manifest
       completeness := completeness
       measurement_scope := scope
       errors := errors
       warnings := warnings4 },
     [IntakeStep.parsePdfs, IntakeStep.extractMetadata]
       ++ (if doGeocode then [IntakeStep.geocode] else [])
       ++ [IntakeStep.classify, IntakeStep.buildManifest,
           IntakeStep.assessPackage, IntakeStep.determineScopeStep,
           IntakeStep.saveOutputs])

/-- C3: when step 1 parses zero documents, `analyze` returns an empty
manifest (no documents, zero drawings) and the empty completeness report
(`critical_gaps` / `hold`), and performs none of steps 2-8 — no metadata
extraction, geocoding, classification, manifest assembly, completeness or
scope computation, and no output persistence. -/
theorem c3_analyze_short_circuit (env : AnalyzeEnv)
    (inputPath projectId projectType : String)
    (h : pdfResultsOf env = []) :
    (analyze env inputPath projectId projectType).1.manifest.documents = []
    ∧ (analyze env inputPath projectId projectType).1.manifest.total_drawings = 0
    ∧ (analyze env inputPath projectId projectType).1.manifest.total_pages = 0
    ∧ (analyze env inputPath projectId projectType).1.completeness =
        createEmptyCompleteness projectId
    ∧ (analyze env inputPath projectId projectType).1.completeness.status =
        "critical_gaps"
    ∧ (analyze env inputPath projectId projectType).1.completeness.proceed_recommendation =
        "hold"
    ∧ (analyze env inputPath projectId projectType).2 = [IntakeStep.parsePdfs]
    ∧ (∀ s ∈ (analyze env inputPath projectId projectType).2,
        s = IntakeStep.parsePdfs) := by
  unfold analyze
  dsimp only
  rw [if_pos (List.isEmpty_iff.2 h)]
  refine ⟨rfl, rfl, rfl, rfl, rfl, rfl, rfl, ?_⟩
  intro s hs
  simpa using hs

/-- An oracle on which the single input file fails to parse. -/
def failedFileEnv : AnalyzeEnv :=
  { inputIsFile := true
    fileResult :=
      { status := ToolStatus.failed
        errors := [createError "PDF_PARSER" "PARSE_ERROR"
          "Failed to parse PDF: broken" false] }
    batchResult := { status := ToolStatus.failed }
    metadataResult := { status := ToolStatus.failed }
    geocodeResult := { status := ToolStatus.failed }
    classifyResult := fun _ => { status := ToolStatus.failed } }

/-- Witness for C3: a failed single-file parse short-circuits to the empty
"critical_gaps" report and runs only step 1. -/
theorem c3_witness :
    (analyze failedFileEnv "plans.pdf" "PRJ1" "default").1.completeness.status =
      "critical_gaps"
    ∧ (analyze failedFileEnv "plans.pdf" "PRJ1" "default").2 =
      [IntakeStep.parsePdfs] :=
  ⟨(c3_analyze_short_circuit failedFileEnv "plans.pdf" "PRJ1" "default"
      rfl).2.2.2.2.1,
   (c3_analyze_short_circuit failedFileEnv "plans.pdf" "PRJ1" "default"
      rfl).2.2.2.2.2.2.1⟩
